import Mathlib

/-!
# Exynos DRM parallel output (exynos_drm_dpi.c)

A shallow embedding of `drivers/gpu/drm/exynos/exynos_drm_dpi.c` and theorems
about it.

Conventions of the embedding

* C `int` values are `Int`s; every `int` arithmetic operation of the source is
  followed by `wrap_int` (two's complement, 32 bit, the kernel is built with
  `-fno-strict-overflow`).
* `unsigned long` values are `Int`s reduced modulo `2 ^ L`, where `L` is
  `BITS_PER_LONG` of the build (a parameter, 32 on the Exynos4412).
* Pointers are `Option`s of handles, `NULL` is `none`.
* Calls into other parts of the kernel that have an effect are recorded as
  events in the order the source issues them.
-/

namespace ExynosDpi

/-! ## Machine integers -/

/-- Two's complement reduction of a mathematical integer to a C `int`. -/
def wrap_int (x : Int) : Int := (x + 2 ^ 31) % 2 ^ 32 - 2 ^ 31

/-- Conversion of an integer value to `unsigned long` (`L` bits). -/
def to_ulong (L : Nat) (x : Int) : Int := x % 2 ^ L

/-! ## Display modes -/

/-- The fields of `struct drm_display_mode` that the driver reads, all C `int`s. -/
structure drm_display_mode where
  clock : Int
  hdisplay : Int
  hsync_start : Int
  hsync_end : Int
  htotal : Int
  vdisplay : Int
  vsync_start : Int
  vsync_end : Int
  vtotal : Int
  deriving DecidableEq, Repr

/-- The two values of `enum drm_mode_status` the driver returns. -/
inductive drm_mode_status where
  | MODE_OK
  | MODE_BAD
  deriving DecidableEq, Repr

/-- The four `pr_info` lines of `exynos_drm_connector_mode_valid`, each with the
arguments the source passes to the format string, in order. -/
inductive pr_info_msg where
  /-- Line "%dx%d VGA unsupported: resolution out of range". -/
  | resolution_out_of_range (a b : Int)
  /-- Line "%dx%d VGA unsupported: V params out of range (%d,%d,%d)". -/
  | V_params_out_of_range (h v vsync_len vbpd vfpd : Int)
  /-- Line "%dx%d VGA unsupported: H params out of range (%d,%d,%d)". -/
  | H_params_out_of_range (h v hsync_len hbpd hfpd : Int)
  /-- Line "%dx%d VGA unsupported: Requires pixel clock %ld". -/
  | requires_pixel_clock (h v ideal_clk : Int)
  deriving DecidableEq, Repr

/-- The result of `exynos_drm_connector_mode_valid`: the returned status and the
lines it printed. -/
structure mode_valid_result where
  ret : drm_mode_status
  log : List pr_info_msg
  deriving DecidableEq, Repr

/-- Source line `unsigned long ideal_clk = mode->clock * 1000;` : an `int` product, converted
to `unsigned long`. -/
def ideal_clk (L : Nat) (mode : drm_display_mode) : Int :=
  to_ulong L (wrap_int (mode.clock * 1000))

/-- Source line `vsync_len = mode->vsync_end - mode->vsync_start;` -/
def vsync_len (mode : drm_display_mode) : Int := wrap_int (mode.vsync_end - mode.vsync_start)

/-- Source line `vbpd = mode->vtotal - mode->vsync_end;` -/
def vbpd (mode : drm_display_mode) : Int := wrap_int (mode.vtotal - mode.vsync_end)

/-- Source line `vfpd = mode->vsync_start - mode->vdisplay;` -/
def vfpd (mode : drm_display_mode) : Int := wrap_int (mode.vsync_start - mode.vdisplay)

/-- Source line `hsync_len = mode->hsync_end - mode->hsync_start;` -/
def hsync_len (mode : drm_display_mode) : Int := wrap_int (mode.hsync_end - mode.hsync_start)

/-- Source line `hbpd = mode->htotal - mode->hsync_end;` -/
def hbpd (mode : drm_display_mode) : Int := wrap_int (mode.htotal - mode.hsync_end)

/-- Source line `hfpd = mode->hsync_start - mode->hdisplay;` -/
def hfpd (mode : drm_display_mode) : Int := wrap_int (mode.hsync_start - mode.hdisplay)

/-- Function `exynos_drm_connector_mode_valid`.

`clk_round_rate` is the clock framework's function for the context's `vclk`
(`clk_round_rate(ctx->vclk, ·)`): it takes an `unsigned long` and returns a
`long`; the comparison with `ideal_clk` is made in `unsigned long`. -/
def exynos_drm_connector_mode_valid (L : Nat) (clk_round_rate : Int → Int)
    (mode : drm_display_mode) : mode_valid_result :=
  if mode.hdisplay > 2048 ∨ mode.vdisplay > 2048 then
    ⟨.MODE_BAD, [.resolution_out_of_range mode.hdisplay mode.hdisplay]⟩
  else if vsync_len mode > 256 ∨ vbpd mode > 256 ∨ vfpd mode > 256 then
    ⟨.MODE_BAD, [.V_params_out_of_range mode.hdisplay mode.vdisplay
      (vsync_len mode) (vbpd mode) (vfpd mode)]⟩
  else if hsync_len mode > 256 ∨ hbpd mode > 256 ∨ hfpd mode > 256 then
    ⟨.MODE_BAD, [.H_params_out_of_range mode.hdisplay mode.vdisplay
      (hsync_len mode) (hbpd mode) (hfpd mode)]⟩
  else if to_ulong L (clk_round_rate (ideal_clk L mode)) ≠ ideal_clk L mode then
    ⟨.MODE_BAD, [.requires_pixel_clock mode.hdisplay mode.vdisplay (ideal_clk L mode)]⟩
  else
    ⟨.MODE_OK, []⟩

/-- The 1920x1080 mode at 148.5 MHz (CEA 1080p60). -/
def mode_1080p : drm_display_mode :=
  { clock := 148500, hdisplay := 1920, hsync_start := 2008, hsync_end := 2052, htotal := 2200,
    vdisplay := 1080, vsync_start := 1084, vsync_end := 1089, vtotal := 1125 }

/-- A clock that can produce every requested rate exactly. -/
def clk_exact : Int → Int := fun r => r

/-- A clock that can only produce 148 MHz. -/
def clk_148MHz : Int → Int := fun _ => 148000000

/-- A 1920x1080 mode whose horizontal sync starts 20 pixels before the end of the
active area (`hsync_start < hdisplay`). -/
def mode_negative_hfpd : drm_display_mode :=
  { clock := 148500, hdisplay := 1920, hsync_start := 1900, hsync_end := 2052, htotal := 2200,
    vdisplay := 1080, vsync_start := 1084, vsync_end := 1089, vtotal := 1125 }

/-- A 4096x2160 mode with a vertical sync length of 300 lines. -/
def mode_4k_long_vsync : drm_display_mode :=
  { clock := 297000, hdisplay := 4096, hsync_start := 4184, hsync_end := 4228, htotal := 4400,
    vdisplay := 2160, vsync_start := 2168, vsync_end := 2468, vtotal := 2500 }

/-- A 1920x1080 mode with a vertical sync length of 300 lines. -/
def mode_1080p_long_vsync : drm_display_mode :=
  { clock := 148500, hdisplay := 1920, hsync_start := 2008, hsync_end := 2052, htotal := 2200,
    vdisplay := 1080, vsync_start := 1084, vsync_end := 1384, vtotal := 1420 }

/-! ## Device tree -/

/-- A device tree node (`struct device_node`), as far as the driver reads it.
Nodes are referred to by handles (`Nat`); a `NULL` pointer is `none`. -/
structure device_node where
  /-- Field `np->name`; `none` is a `NULL` name. -/
  name : Option String
  /-- Field `np->parent`. -/
  parent : Option Nat
  /-- The children, in the order `for_each_child_of_node` visits them. -/
  children : List Nat
  /-- The value `of_property_read_u32(np, "reg", &r)` stores; `none` when the call
  fails (returns a negative value). -/
  reg : Option Nat
  /-- The node `of_parse_phandle(np, "remote-endpoint", 0)` returns. -/
  remote_endpoint : Option Nat
  /-- The node `of_parse_phandle(np, "ddc", 0)` returns. -/
  ddc : Option Nat
  deriving DecidableEq, Repr

/-- The device tree: the node behind every handle. -/
abbrev device_tree := Nat → device_node

/-- Outcome of a device tree lookup: the returned pointer, or a `NULL` pointer
dereference on the way. -/
inductive lookup_result where
  | oops
  | ret (np : Option Nat)
  deriving DecidableEq, Repr

/-- Whether node `np` has a name that `of_node_cmp` finds equal to `name`.
`of_node_cmp` is the string comparison macro of `linux/of.h` (zero for a match),
a parameter of the embedding. -/
def node_named (of_node_cmp : String → String → Int) (g : device_tree) (name : String)
    (np : Nat) : Bool :=
  match (g np).name with
  | none => false
  | some n => of_node_cmp n name == 0

/-- The reg of a node as `of_get_child_by_name_reg` reads it:
`if (of_property_read_u32(np, "reg", &r) < 0) r = 0;`. -/
def node_reg (g : device_tree) (np : Nat) : Nat :=
  match (g np).reg with
  | some r => r
  | none => 0

/-- The loop of `of_get_child_by_name_reg` over the children still to visit; the
loop variable is `NULL` after the last child. -/
def of_get_child_by_name_reg_loop (of_node_cmp : String → String → Int) (g : device_tree)
    (name : String) (reg : Nat) : List Nat → Option Nat
  | [] => none
  | np :: rest =>
    match (g np).name with
    | none => of_get_child_by_name_reg_loop of_node_cmp g name reg rest
    | some n =>
      if of_node_cmp n name ≠ 0 then
        of_get_child_by_name_reg_loop of_node_cmp g name reg rest
      else if reg = node_reg g np then
        some np
      else
        of_get_child_by_name_reg_loop of_node_cmp g name reg rest

/-- Function `of_get_child_by_name_reg`. -/
def of_get_child_by_name_reg (of_node_cmp : String → String → Int) (g : device_tree)
    (parent : Nat) (name : String) (reg : Nat) : Option Nat :=
  of_get_child_by_name_reg_loop of_node_cmp g name reg (g parent).children

/-- Modelled from the spec: `of_get_child_by_name` of `drivers/of/base.c`, which is
not in this file; it locates the child named `name` if present (the first one in
child order). -/
def of_get_child_by_name (of_node_cmp : String → String → Int) (g : device_tree)
    (node : Nat) (name : String) : Option Nat :=
  (g node).children.find? (node_named of_node_cmp g name)

/-- The node whose children `of_graph_get_port_by_reg` searches:
`ports = of_get_child_by_name(parent, "ports"); if (ports) parent = ports;`. -/
def port_scope (of_node_cmp : String → String → Int) (g : device_tree) (parent : Nat) : Nat :=
  match of_get_child_by_name of_node_cmp g parent "ports" with
  | some ports => ports
  | none => parent

/-- Function `of_graph_get_port_by_reg`. -/
def of_graph_get_port_by_reg (of_node_cmp : String → String → Int) (g : device_tree)
    (parent : Nat) (reg : Nat) : Option Nat :=
  of_get_child_by_name_reg of_node_cmp g (port_scope of_node_cmp g parent) "port" reg

/-- Function `of_graph_get_endpoint_by_reg`. -/
def of_graph_get_endpoint_by_reg (of_node_cmp : String → String → Int) (g : device_tree)
    (port : Nat) (reg : Nat) : Option Nat :=
  of_get_child_by_name_reg of_node_cmp g port "endpoint" reg

/-- Modelled from the spec: `of_get_next_parent` of `drivers/of/base.c`, which is
not in this file; it ascends one parent link. -/
def of_get_next_parent (g : device_tree) (np : Nat) : Option Nat := (g np).parent

/-- The loop of `of_graph_get_remote_port_parent`,
`for (depth = 3; depth && np; depth--)`, from the current `depth` and `np`.
At `depth == 2` the source reads `np->name` of the node just ascended to without
a `NULL` check. -/
def of_graph_get_remote_port_parent_loop (of_node_cmp : String → String → Int)
    (g : device_tree) : Nat → Option Nat → lookup_result
  | 0, np => .ret np
  | _ + 1, none => .ret none
  | depth + 1, some n =>
    if depth + 1 = 2 then
      match of_get_next_parent g n with
      | none => .oops
      | some p =>
        match (g p).name with
        | none => .oops
        | some nm =>
          if of_node_cmp nm "ports" ≠ 0 then .ret (some p)
          else of_graph_get_remote_port_parent_loop of_node_cmp g depth (some p)
    else
      of_graph_get_remote_port_parent_loop of_node_cmp g depth (of_get_next_parent g n)

/-- Function `of_graph_get_remote_port_parent`. -/
def of_graph_get_remote_port_parent (of_node_cmp : String → String → Int) (g : device_tree)
    (node : Nat) : lookup_result :=
  of_graph_get_remote_port_parent_loop of_node_cmp g 3 (g node).remote_endpoint

/-- Enumerator `FIMD_PORT_RGB`, the fourth enumerator of the anonymous enum. -/
def FIMD_PORT_RGB : Nat := 3

/-- Function `exynos_dpi_of_find_panel_node`, for a device whose `of_node` is the node
`of_node`. -/
def exynos_dpi_of_find_panel_node (of_node_cmp : String → String → Int) (g : device_tree)
    (of_node : Nat) : lookup_result :=
  match of_graph_get_port_by_reg of_node_cmp g of_node FIMD_PORT_RGB with
  | none => .ret none
  | some np =>
    match of_graph_get_endpoint_by_reg of_node_cmp g np 0 with
    | none => .ret none
    | some ep => of_graph_get_remote_port_parent of_node_cmp g ep

/-- Whether `np` is a node that `of_get_child_by_name_reg(_, name, reg)` stops at. -/
def node_matches (of_node_cmp : String → String → Int) (g : device_tree) (name : String)
    (reg : Nat) (np : Nat) : Bool :=
  node_named of_node_cmp g name np && (reg == node_reg g np)

/-- Node `c` is the child of `p` with the given name and reg: it is a child of `p`,
it matches, and no other child of `p` matches. -/
def the_child (of_node_cmp : String → String → Int) (g : device_tree) (p : Nat)
    (name : String) (reg : Nat) (c : Nat) : Prop :=
  c ∈ (g p).children ∧ node_matches of_node_cmp g name reg c = true ∧
  ∀ c' ∈ (g p).children, node_matches of_node_cmp g name reg c' = true → c' = c

/-- Node `w` is the "ports" child of `p`. -/
def the_ports_child (of_node_cmp : String → String → Int) (g : device_tree) (p w : Nat) :
    Prop :=
  w ∈ (g p).children ∧ node_named of_node_cmp g "ports" w = true ∧
  ∀ c ∈ (g p).children, node_named of_node_cmp g "ports" c = true → c = w

/-- The lower case code of an ASCII character, as `tolower` gives it. -/
def ascii_tolower (c : Char) : Nat :=
  if 65 ≤ c.toNat ∧ c.toNat ≤ 90 then c.toNat + 32 else c.toNat

/-- A comparison in the role of `of_node_cmp`, which `linux/of.h` defines as
`strcasecmp`: zero exactly when the two strings are equal up to the case of ASCII
letters (the driver only tests the result against zero). -/
def strcasecmp_model (a b : String) : Int :=
  if a.data.map ascii_tolower = b.data.map ascii_tolower then 0 else 1

/-- A node with the given name, parent, children and reg, and no phandles. -/
def mk_node (name : String) (parent : Option Nat) (children : List Nat) (reg : Option Nat) :
    device_node :=
  { name := some name, parent := parent, children := children, reg := reg,
    remote_endpoint := none, ddc := none }

/-- A display controller (node 0) whose RGB port (node 2, reg 3) has an endpoint
(node 3) connected to the endpoint (node 13) of the port (node 12) of a panel
(node 10). With `lw` the local port sits under a "ports" node (node 1), otherwise
directly under node 0; with `rw` the remote port sits under a "ports" node
(node 11), otherwise directly under node 10. -/
def example_tree (lw rw : Bool) : device_tree := fun n =>
  match n with
  | 0 => mk_node "fimd" none (if lw then [1] else [2]) none
  | 1 => mk_node "ports" (some 0) (if lw then [2] else []) none
  | 2 => mk_node "port" (some (if lw then 1 else 0)) [3] (some 3)
  | 3 => { mk_node "endpoint" (some 2) [] none with remote_endpoint := some 13 }
  | 10 => mk_node "panel" none (if rw then [11] else [12]) none
  | 11 => mk_node "ports" (some 10) (if rw then [12] else []) none
  | 12 => mk_node "port" (some (if rw then 11 else 10)) [13] none
  | 13 => { mk_node "endpoint" (some 12) [] none with remote_endpoint := some 3 }
  | _ => mk_node "" none [] none

/-- Three trees without a panel. In all of them node 0 is the display controller
with a child "port" (node 2) that has a child "endpoint" (node 3).
`k = 0`: the port has no reg (so it counts as reg 0, not 3).
`k = 1`: the port has reg 3 and its endpoint has reg 1.
`k = 2`: the port has reg 3, the endpoint has no reg and no remote-endpoint. -/
def example_tree_no_panel (k : Nat) : device_tree := fun n =>
  match n with
  | 0 => mk_node "fimd" none [2] none
  | 2 => mk_node "port" (some 0) [3] (if k = 0 then none else some 3)
  | 3 => mk_node "endpoint" (some 2) [] (if k = 1 then some 1 else none)
  | _ => mk_node "" none [] none

/-! ## The driver context -/

/-- A pointer that may carry an error code (`ERR_PTR`, `IS_ERR`, `PTR_ERR`). -/
inductive err_ptr where
  | NULL
  | ptr (handle : Nat)
  | ERR_PTR (err : Int)
  deriving DecidableEq, Repr

/-- The context `struct exynos_dpi`, without the unused `vm` and the embedded
`connector`. Pointers to objects of other subsystems are handles. -/
structure exynos_dpi where
  dev : Option Nat
  ddc_adpt : Option Nat
  vclk : err_ptr
  panel : Option Nat
  encoder : Option Nat
  dpms_mode : Int
  deriving DecidableEq, Repr

/-- The context as `devm_kzalloc` returns it: all fields zero. -/
def exynos_dpi_zeroed : exynos_dpi :=
  { dev := none, ddc_adpt := none, vclk := .NULL, panel := none, encoder := none,
    dpms_mode := 0 }

/-- The `DRM_MODE_DPMS_*` constants of `drm_mode.h`, which is not in this file:
four distinct `int`s (they label the cases of one `switch`). -/
structure dpms_consts where
  DRM_MODE_DPMS_ON : Int
  DRM_MODE_DPMS_STANDBY : Int
  DRM_MODE_DPMS_SUSPEND : Int
  DRM_MODE_DPMS_OFF : Int
  distinct : [DRM_MODE_DPMS_ON, DRM_MODE_DPMS_STANDBY, DRM_MODE_DPMS_SUSPEND,
    DRM_MODE_DPMS_OFF].Nodup

/-- The values the constants have in `drm_mode.h`. -/
def drm_mode_h : dpms_consts :=
  { DRM_MODE_DPMS_ON := 0, DRM_MODE_DPMS_STANDBY := 1, DRM_MODE_DPMS_SUSPEND := 2,
    DRM_MODE_DPMS_OFF := 3, distinct := by decide }

/-- The errno constants the driver uses, from headers that are not in this file:
positive `int`s. -/
structure errno_consts where
  ENODEV : Int
  EPROBE_DEFER : Int
  ENODEV_pos : 0 < ENODEV
  EPROBE_DEFER_pos : 0 < EPROBE_DEFER

/-- The values the constants have in the kernel headers. -/
def errno_h : errno_consts :=
  { ENODEV := 19, EPROBE_DEFER := 517, ENODEV_pos := by decide, EPROBE_DEFER_pos := by decide }

/-! ## Power state -/

/-- The calls the driver makes into the panel framework. -/
inductive panel_call where
  | drm_panel_enable (panel : Nat)
  | drm_panel_disable (panel : Nat)
  deriving DecidableEq, Repr

/-- Function `exynos_dpi_poweron`: the panel calls it issues. -/
def exynos_dpi_poweron (ctx : exynos_dpi) : List panel_call :=
  match ctx.panel with
  | some panel => [.drm_panel_enable panel]
  | none => []

/-- Function `exynos_dpi_poweroff`: the panel calls it issues. -/
def exynos_dpi_poweroff (ctx : exynos_dpi) : List panel_call :=
  match ctx.panel with
  | some panel => [.drm_panel_disable panel]
  | none => []

/-- Function `exynos_dpi_dpms` on the context `display->ctx`: the context afterwards and
the panel calls issued, in order. -/
def exynos_dpi_dpms (K : dpms_consts) (ctx : exynos_dpi) (mode : Int) :
    exynos_dpi × List panel_call :=
  let calls :=
    if mode = K.DRM_MODE_DPMS_ON then
      if ctx.dpms_mode ≠ K.DRM_MODE_DPMS_ON then exynos_dpi_poweron ctx else []
    else if mode = K.DRM_MODE_DPMS_STANDBY ∨ mode = K.DRM_MODE_DPMS_SUSPEND ∨
        mode = K.DRM_MODE_DPMS_OFF then
      if ctx.dpms_mode = K.DRM_MODE_DPMS_ON then exynos_dpi_poweroff ctx else []
    else
      []
  ({ ctx with dpms_mode := mode }, calls)

/-- A sequence of `exynos_dpi_dpms` calls: the context afterwards and, for each
call in order, the panel calls it issued. -/
def exynos_dpi_dpms_seq (K : dpms_consts) (ctx : exynos_dpi) :
    List Int → exynos_dpi × List (List panel_call)
  | [] => (ctx, [])
  | mode :: rest =>
    let r := exynos_dpi_dpms K ctx mode
    let rs := exynos_dpi_dpms_seq K r.1 rest
    (rs.1, r.2 :: rs.2)

/-- A context as `exynos_dpi_probe` leaves it, with panel 7 attached. -/
def ctx_with_panel : exynos_dpi :=
  { dev := some 1, ddc_adpt := some 4, vclk := .ptr 5, panel := some 7, encoder := none,
    dpms_mode := drm_mode_h.DRM_MODE_DPMS_OFF }

/-! ## Mode list -/

/-- The fields of `struct edid` that the driver reads, and a handle for the block. -/
structure edid where
  handle : Nat
  width_cm : Nat
  height_cm : Nat
  deriving DecidableEq, Repr

/-- What `exynos_dpi_get_modes` does besides returning, in order. -/
inductive get_modes_event where
  /-- Line "VGA monitor : width[%d] x height[%d]". -/
  | pr_info_monitor (width_cm height_cm : Nat)
  | drm_mode_connector_update_edid_property (e : edid)
  | drm_add_edid_modes (e : edid)
  deriving DecidableEq, Repr

/-- Function `exynos_dpi_get_modes`: the returned `int` and the events.
`drm_get_edid` is the EDID read over the given adapter (`NULL` when nothing
answers), `drm_add_edid_modes` the number of modes the DRM core adds for an EDID;
both belong to the DRM core. -/
def exynos_dpi_get_modes (E : errno_consts) (drm_get_edid : Nat → Option edid)
    (drm_add_edid_modes : edid → Int) (ctx : exynos_dpi) : Int × List get_modes_event :=
  match ctx.ddc_adpt with
  | none => (-E.ENODEV, [])
  | some ddc_adpt =>
    match drm_get_edid ddc_adpt with
    | none => (-E.ENODEV, [])
    | some e =>
      (drm_add_edid_modes e,
        [.pr_info_monitor e.width_cm e.height_cm,
         .drm_mode_connector_update_edid_property e,
         .drm_add_edid_modes e])

/-! ## Probe -/

/-- A `struct device`: its identity and its `of_node`. -/
structure device where
  id : Nat
  of_node : Nat
  deriving DecidableEq, Repr

/-- The outcomes of the calls `exynos_dpi_probe` makes into the rest of the
kernel. -/
structure probe_env where
  /-- Return value of `exynos_drm_component_add`. -/
  component_add : Int
  /-- Address `devm_kzalloc` returns, `none` for `NULL`. -/
  devm_kzalloc : Option Nat
  /-- Result of `devm_clk_get(dev, "vclk")`. -/
  devm_clk_get : err_ptr
  /-- The function `of_find_i2c_adapter_by_node`. -/
  of_find_i2c_adapter_by_node : Nat → Option Nat
  /-- Result of `syscon_regmap_lookup_by_phandle(dev->of_node, "samsung,sysreg")`. -/
  syscon_regmap_lookup_by_phandle : err_ptr

/-- The state `exynos_dpi_probe` acts on. -/
structure driver_state where
  /-- The devices registered as connector component. -/
  components : List Nat
  /-- The field `exynos_dpi_display.ctx`: the address of a context. -/
  display_ctx : Option Nat
  /-- The addresses of the device-managed allocations that have not been freed. -/
  allocated : List Nat
  /-- The contexts written so far, by address, latest first. -/
  ctx_mem : List (Nat × exynos_dpi)
  /-- The `regmap_write` calls so far, latest first: regmap, register, value. -/
  regmap_writes : List (err_ptr × Nat × Nat)
  deriving DecidableEq, Repr

/-- What `exynos_dpi_probe` returns. -/
inductive probe_ret where
  | ERR_PTR (err : Int)
  | NULL
  /-- The address of `exynos_dpi_display`. -/
  | exynos_dpi_display
  deriving DecidableEq, Repr

/-- Constant `MAX_ERRNO` of `linux/err.h`. -/
def MAX_ERRNO : Int := 4095

/-- Macro `IS_ERR` of `linux/err.h`: the pointer value lies in the last
`MAX_ERRNO` addresses, that is, it is `ERR_PTR(err)` with `-MAX_ERRNO ≤ err ≤ -1`. -/
def IS_ERR : err_ptr → Bool
  | .ERR_PTR err => decide (-MAX_ERRNO ≤ err ∧ err ≤ -1)
  | _ => false

/-- Modelled from the spec: `exynos_drm_component_add(dev,
EXYNOS_DEVICE_TYPE_CONNECTOR, _)` of `exynos_drm_drv.c`, which is not in this
file; when it returns 0 the device is registered as connector component. -/
def exynos_drm_component_add (ret : Int) (dev : device) (components : List Nat) : List Nat :=
  if ret = 0 then dev.id :: components else components

/-- Modelled from the spec: `exynos_drm_component_del(dev,
EXYNOS_DEVICE_TYPE_CONNECTOR)` of `exynos_drm_drv.c`, which is not in this file;
it removes the registration of the device as connector component. -/
def exynos_drm_component_del (dev : device) (components : List Nat) : List Nat :=
  components.filter (fun d => d ≠ dev.id)

/-- Function `exynos_dpi_parse_dt`: the returned `int` and the context afterwards. -/
def exynos_dpi_parse_dt (E : errno_consts) (env : probe_env) (g : device_tree) (dn : Nat)
    (ctx : exynos_dpi) : Int × exynos_dpi :=
  match (g dn).ddc with
  | none => (-E.ENODEV, ctx)
  | some ddc_node =>
    let ctx := { ctx with ddc_adpt := env.of_find_i2c_adapter_by_node ddc_node }
    match ctx.ddc_adpt with
    | none => (-E.EPROBE_DEFER, ctx)
    | some _ => (0, ctx)

/-- The label `err_del_component` of `exynos_dpi_probe`. -/
def err_del_component (dev : device) (s : driver_state) : probe_ret × driver_state :=
  (.NULL, { s with components := exynos_drm_component_del dev s.components })

/-- Function `exynos_dpi_probe`: the returned pointer and the state afterwards. -/
def exynos_dpi_probe (K : dpms_consts) (E : errno_consts) (env : probe_env) (g : device_tree)
    (dev : device) (s : driver_state) : probe_ret × driver_state :=
  let ret := env.component_add
  let s := { s with components := exynos_drm_component_add ret dev s.components }
  if ret ≠ 0 then
    (.ERR_PTR ret, s)
  else
    match env.devm_kzalloc with
    | none => err_del_component dev s
    | some addr =>
      let ctx := { exynos_dpi_zeroed with dev := some dev.id }
      let s := { s with allocated := addr :: s.allocated, display_ctx := some addr }
      let ctx := { ctx with dpms_mode := K.DRM_MODE_DPMS_OFF }
      let ctx := { ctx with vclk := env.devm_clk_get }
      if IS_ERR ctx.vclk then
        err_del_component dev { s with ctx_mem := (addr, ctx) :: s.ctx_mem }
      else
        let r := exynos_dpi_parse_dt E env g dev.of_node ctx
        let s := { s with ctx_mem := (addr, r.2) :: s.ctx_mem }
        if r.1 < 0 then
          err_del_component dev { s with allocated := s.allocated.filter (fun a => a ≠ addr) }
        else
          let sysreg := env.syscon_regmap_lookup_by_phandle
          if IS_ERR sysreg then
            err_del_component dev s
          else
            (.exynos_dpi_display,
              { s with regmap_writes := (sysreg, 0x210, 0x3) :: s.regmap_writes })

/-- A device tree in which node 0, the display controller, has a "ddc" phandle to
node 20. -/
def example_tree_ddc : device_tree := fun n =>
  match n with
  | 0 => { mk_node "fimd" none [] none with ddc := some 20 }
  | 20 => mk_node "i2c" none [] none
  | _ => mk_node "" none [] none

/-- The display controller device: device 1 with `of_node` 0. -/
def fimd_dev : device := { id := 1, of_node := 0 }

/-- An environment in which every call of `exynos_dpi_probe` succeeds. -/
def env_ok : probe_env :=
  { component_add := 0, devm_kzalloc := some 100, devm_clk_get := .ptr 5,
    of_find_i2c_adapter_by_node := fun _ => some 4,
    syscon_regmap_lookup_by_phandle := .ptr 9 }

/-- The state before the first probe. -/
def state_initial : driver_state :=
  { components := [], display_ctx := none, allocated := [], ctx_mem := [], regmap_writes := [] }

/-- An EDID read that never gets an answer. -/
def drm_get_edid_no_sink : Nat → Option edid := fun _ => none

/-- An EDID read that returns a block for a 52 cm by 29 cm monitor. -/
def drm_get_edid_monitor : Nat → Option edid :=
  fun _ => some { handle := 1, width_cm := 52, height_cm := 29 }

/-! ## Detection, mode commit and connector creation -/

/-- The two values of `enum drm_connector_status` the driver returns. -/
inductive drm_connector_status where
  | connector_status_connected
  | connector_status_disconnected
  deriving DecidableEq, Repr

/-- Modelled from the spec: `drm_panel_attach` of the panel framework, which is not
in this file; it attaches the panel to the connector, after which
`panel->connector` is set. `attached` lists the panels whose `connector` field is
set. -/
def drm_panel_attach (panel : Nat) (attached : List Nat) : List Nat := panel :: attached

/-- Function `exynos_dpi_detect`: the returned status and the attached panels
afterwards. `drm_probe_ddc` is the presence probe of the DRM core over the given
adapter. -/
def exynos_dpi_detect (drm_probe_ddc : Nat → Bool) (ctx : exynos_dpi) (attached : List Nat) :
    drm_connector_status × List Nat :=
  let attached :=
    match ctx.panel with
    | some panel => if panel ∉ attached then drm_panel_attach panel attached else attached
    | none => attached
  match ctx.ddc_adpt with
  | some ddc_adpt =>
    if drm_probe_ddc ddc_adpt then (.connector_status_connected, attached)
    else (.connector_status_disconnected, attached)
  | none => (.connector_status_disconnected, attached)

/-- The calls of `exynos_dpi_mode_set` into the platform code. -/
inductive qos_call where
  | exynos4412_qos (a b : Nat)
  deriving DecidableEq, Repr

/-- Function `exynos_dpi_mode_set`: the calls it issues. -/
def exynos_dpi_mode_set (mode : drm_display_mode) : List qos_call :=
  if mode.clock ≥ 135000 then [.exynos4412_qos 3 3] else [.exynos4412_qos 0 0]

/-- Function `exynos_dpi_best_encoder`. -/
def exynos_dpi_best_encoder (ctx : exynos_dpi) : Option Nat := ctx.encoder

/-- What `exynos_dpi_create_connector` does to the connector, in order. -/
inductive create_connector_event where
  | set_polled
  | drm_connector_init
  | DRM_ERROR_init_failed
  | set_status (status : drm_connector_status)
  | drm_connector_helper_add
  | drm_sysfs_connector_add
  | drm_mode_connector_attach_encoder (encoder : Nat)
  deriving DecidableEq, Repr

/-- Function `exynos_dpi_create_connector` on the context `display->ctx`: the
returned `int`, the context and the attached panels afterwards, and the events.
`drm_connector_init` is the return value of the DRM core function. -/
def exynos_dpi_create_connector (drm_connector_init : Int) (drm_probe_ddc : Nat → Bool)
    (ctx : exynos_dpi) (attached : List Nat) (encoder : Nat) :
    Int × exynos_dpi × List Nat × List create_connector_event :=
  let ctx := { ctx with encoder := some encoder }
  let ret := drm_connector_init
  if ret ≠ 0 then
    (ret, ctx, attached, [.set_polled, .drm_connector_init, .DRM_ERROR_init_failed])
  else
    let d := exynos_dpi_detect drm_probe_ddc ctx attached
    (0, ctx, d.2,
      [.set_polled, .drm_connector_init, .set_status d.1, .drm_connector_helper_add,
       .drm_sysfs_connector_add, .drm_mode_connector_attach_encoder encoder])

/-- The functions of other subsystems and the constants the operations of the
driver depend on. -/
structure dpi_env where
  L : Nat
  K : dpms_consts
  E : errno_consts
  clk_round_rate : Int → Int
  drm_probe_ddc : Nat → Bool
  drm_get_edid : Nat → Option edid
  drm_add_edid_modes : edid → Int

/-- The operations the driver exposes through its function tables. -/
inductive dpi_op where
  | detect
  | get_modes
  | mode_valid (mode : drm_display_mode)
  | dpms (mode : Int)
  | mode_set (mode : drm_display_mode)
  /-- Operation `create_connector` with the given encoder, `drm_connector_init`
  returning `init_ret`. -/
  | create_connector (encoder : Nat) (init_ret : Int)
  deriving DecidableEq, Repr

/-- The state the operations act on: the context and the attached panels. -/
structure dpi_state where
  ctx : exynos_dpi
  attached : List Nat
  deriving DecidableEq, Repr

/-- One operation: the state afterwards. The functions `exynos_dpi_get_modes`,
`exynos_drm_connector_mode_valid` and `exynos_dpi_mode_set` write neither the
context nor the panel. -/
def dpi_step (env : dpi_env) (s : dpi_state) : dpi_op → dpi_state
  | .detect => { s with attached := (exynos_dpi_detect env.drm_probe_ddc s.ctx s.attached).2 }
  | .get_modes => s
  | .mode_valid _ => s
  | .dpms mode => { s with ctx := (exynos_dpi_dpms env.K s.ctx mode).1 }
  | .mode_set _ => s
  | .create_connector encoder init_ret =>
    let r := exynos_dpi_create_connector init_ret env.drm_probe_ddc s.ctx s.attached encoder
    { ctx := r.2.1, attached := r.2.2.1 }

/-- A sequence of operations: the state afterwards. -/
def dpi_run (env : dpi_env) (s : dpi_state) : List dpi_op → dpi_state
  | [] => s
  | op :: rest => dpi_run env (dpi_step env s op) rest

/-- Whether the operation is a `create_connector`. -/
def dpi_op.is_create : dpi_op → Bool
  | .create_connector _ _ => true
  | _ => false

/-- An environment with the kernel constants of a 32 bit build, an exact clock, a
sink that answers and a monitor for which 12 modes are added. -/
def dpi_env_example : dpi_env :=
  { L := 32, K := drm_mode_h, E := errno_h, clk_round_rate := clk_exact,
    drm_probe_ddc := fun _ => true, drm_get_edid := drm_get_edid_monitor,
    drm_add_edid_modes := fun _ => 12 }

/-- The state after probe with panel 7, the panel not yet attached. -/
def dpi_state_example : dpi_state := { ctx := ctx_with_panel, attached := [] }

/-- A tree in which node 3, an endpoint, has the remote-endpoint node 13. With
`k = 0` node 13 has no parent; with `k = 1` its parent is the port node 12, which
has no parent. -/
def example_tree_orphan (k : Nat) : device_tree := fun n =>
  match n with
  | 3 => { mk_node "endpoint" none [] none with remote_endpoint := some 13 }
  | 12 => mk_node "port" none [13] none
  | 13 => mk_node "endpoint" (if k = 0 then none else some 12) [] none
  | _ => mk_node "" none [] none

/-- The 1080p mode with the pixel clock field set to the given value. -/
def mode_1080p_clock (clock : Int) : drm_display_mode := { mode_1080p with clock := clock }

/-- Whether the panel is enabled after the given calls, from the given state. -/
def panel_enabled (enabled : Bool) : List panel_call → Bool
  | [] => enabled
  | .drm_panel_enable _ :: rest => panel_enabled true rest
  | .drm_panel_disable _ :: rest => panel_enabled false rest

/-- Whether enable and disable calls strictly alternate; `enabled` tells whether
the last call before the list was an enable, so that the first call of the list
has to be a disable. -/
def calls_alternate (enabled : Bool) : List panel_call → Bool
  | [] => true
  | .drm_panel_enable _ :: rest => !enabled && calls_alternate true rest
  | .drm_panel_disable _ :: rest => enabled && calls_alternate false rest

/-- The number of enable calls. -/
def count_enable : List panel_call → Nat
  | [] => 0
  | .drm_panel_enable _ :: rest => count_enable rest + 1
  | .drm_panel_disable _ :: rest => count_enable rest

/-- The number of disable calls. -/
def count_disable : List panel_call → Nat
  | [] => 0
  | .drm_panel_enable _ :: rest => count_disable rest
  | .drm_panel_disable _ :: rest => count_disable rest + 1

/-- All panel calls of a sequence of `exynos_dpi_dpms` calls, in order. -/
def exynos_dpi_dpms_calls (K : dpms_consts) (ctx : exynos_dpi) (modes : List Int) :
    List panel_call :=
  (exynos_dpi_dpms_seq K ctx modes).2.flatten

/-- A tree in which node 0 has a "port" child with reg 3 (node 2) directly under
it and also an empty "ports" child (node 1). -/
def example_tree_shadowed : device_tree := fun n =>
  match n with
  | 0 => mk_node "fimd" none [2, 1] none
  | 1 => mk_node "ports" (some 0) [] none
  | 2 => mk_node "port" (some 0) [] (some 3)
  | _ => mk_node "" none [] none

/-- A clock that can only produce 148.5 MHz and returns 0 for every other
request. -/
def clk_only_148500kHz : Int → Int := fun r => if r = 148500000 then 148500000 else 0

/-! ## Theorems: the timing constraint validator -/

theorem to_ulong_idem (L : Nat) (x : Int) : to_ulong L (to_ulong L x) = to_ulong L x := by
  unfold to_ulong
  exact Int.emod_emod_of_dvd x (dvd_refl _)

theorem to_ulong_ideal_clk (L : Nat) (m : drm_display_mode) :
    to_ulong L (ideal_clk L m) = ideal_clk L m := by
  unfold ideal_clk
  exact to_ulong_idem L _

theorem to_ulong_of_range (L : Nat) (x : Int) (h0 : 0 ≤ x) (h1 : x < 2 ^ L) :
    to_ulong L x = x := by
  unfold to_ulong
  exact Int.emod_eq_of_lt h0 h1

theorem ideal_clk_1080p (L : Nat) (hL : 32 ≤ L) : ideal_clk L mode_1080p = 148500000 := by
  have hw : wrap_int (mode_1080p.clock * 1000) = 148500000 := by decide
  unfold ideal_clk
  rw [hw]
  apply to_ulong_of_range
  · norm_num
  · have h32 : (2 : Int) ^ 32 ≤ 2 ^ L := pow_le_pow_right₀ (by norm_num) hL
    have : (148500000 : Int) < 2 ^ 32 := by norm_num
    omega

theorem mode_valid_ok_of_checks (L : Nat) (clk_round_rate : Int → Int) (m : drm_display_mode)
    (hres : ¬ (m.hdisplay > 2048 ∨ m.vdisplay > 2048))
    (hv : ¬ (vsync_len m > 256 ∨ vbpd m > 256 ∨ vfpd m > 256))
    (hh : ¬ (hsync_len m > 256 ∨ hbpd m > 256 ∨ hfpd m > 256))
    (hclk : to_ulong L (clk_round_rate (ideal_clk L m)) = ideal_clk L m) :
    exynos_drm_connector_mode_valid L clk_round_rate m = ⟨.MODE_OK, []⟩ := by
  unfold exynos_drm_connector_mode_valid
  rw [if_neg hres, if_neg hv, if_neg hh, if_neg (not_not.mpr hclk)]

/-- C1: a mode whose active size is at most 2048 on both axes, whose six derived
timing values (as the source computes them) are each at most 256, and for which
`clk_round_rate` returns exactly the requested `clock * 1000`, is accepted
(`MODE_OK`, nothing printed). -/
theorem mode_valid_accepts (L : Nat) (clk_round_rate : Int → Int) (m : drm_display_mode)
    (hh : m.hdisplay ≤ 2048) (hv : m.vdisplay ≤ 2048)
    (h1 : vsync_len m ≤ 256) (h2 : vbpd m ≤ 256) (h3 : vfpd m ≤ 256)
    (h4 : hsync_len m ≤ 256) (h5 : hbpd m ≤ 256) (h6 : hfpd m ≤ 256)
    (hclk : clk_round_rate (ideal_clk L m) = ideal_clk L m) :
    exynos_drm_connector_mode_valid L clk_round_rate m = ⟨.MODE_OK, []⟩ := by
  apply mode_valid_ok_of_checks L clk_round_rate m (by omega) (by omega) (by omega)
  rw [hclk, to_ulong_ideal_clk]

/-- Witness of C1: the 1080p mode with an exact clock on a 32 bit build. -/
theorem mode_valid_accepts_witness :
    mode_1080p.hdisplay ≤ 2048 ∧ mode_1080p.vdisplay ≤ 2048 ∧
    clk_exact (ideal_clk 32 mode_1080p) = ideal_clk 32 mode_1080p ∧
    exynos_drm_connector_mode_valid 32 clk_exact mode_1080p = ⟨.MODE_OK, []⟩ :=
  ⟨by decide, by decide, rfl,
    mode_valid_accepts 32 clk_exact mode_1080p (by decide) (by decide) (by decide) (by decide)
      (by decide) (by decide) (by decide) (by decide) rfl⟩

/-- C2: the code at the failing input. A mode whose horizontal front porch is
negative (`hsync_start - hdisplay = -20`), and so does not fit the register width
the comment of the function requires, is accepted with `MODE_OK`. -/
theorem negative_porch_mode_accepted :
    exynos_drm_connector_mode_valid 32 clk_exact mode_negative_hfpd = ⟨.MODE_OK, []⟩ ∧
    hfpd mode_negative_hfpd = -20 ∧ ¬ (0 ≤ hfpd mode_negative_hfpd) := by
  decide

/-- The part of C2 the code does enforce: if the mode is accepted then `hdisplay`
and `vdisplay` are at most 2048 and each of the six derived quantities is at most
256. -/
theorem mode_valid_ok_bounds (L : Nat) (clk_round_rate : Int → Int) (m : drm_display_mode)
    (hok : (exynos_drm_connector_mode_valid L clk_round_rate m).ret = .MODE_OK) :
    m.hdisplay ≤ 2048 ∧ m.vdisplay ≤ 2048 ∧
    vsync_len m ≤ 256 ∧ vbpd m ≤ 256 ∧ vfpd m ≤ 256 ∧
    hsync_len m ≤ 256 ∧ hbpd m ≤ 256 ∧ hfpd m ≤ 256 := by
  unfold exynos_drm_connector_mode_valid at hok
  split_ifs at hok with c1 c2 c3 c4
  omega

/-- The upper bounds at the accepted 1080p mode. -/
theorem mode_valid_ok_bounds_witness :
    (exynos_drm_connector_mode_valid 32 clk_exact mode_1080p).ret = .MODE_OK ∧
    (mode_1080p.hdisplay ≤ 2048 ∧ mode_1080p.vdisplay ≤ 2048 ∧
      vsync_len mode_1080p ≤ 256 ∧ vbpd mode_1080p ≤ 256 ∧ vfpd mode_1080p ≤ 256 ∧
      hsync_len mode_1080p ≤ 256 ∧ hbpd mode_1080p ≤ 256 ∧ hfpd mode_1080p ≤ 256) :=
  ⟨by decide, mode_valid_ok_bounds 32 clk_exact mode_1080p (by decide)⟩

/-- C3: a mode with `hdisplay > 2048` or `vdisplay > 2048` is rejected with
`MODE_BAD`, whatever its other fields and whatever the clock returns, and the one
line printed is the resolution-out-of-range line. -/
theorem mode_valid_rejects_resolution (L : Nat) (clk_round_rate : Int → Int)
    (m : drm_display_mode) (h : m.hdisplay > 2048 ∨ m.vdisplay > 2048) :
    exynos_drm_connector_mode_valid L clk_round_rate m =
      ⟨.MODE_BAD, [.resolution_out_of_range m.hdisplay m.hdisplay]⟩ := by
  unfold exynos_drm_connector_mode_valid
  rw [if_pos h]

/-- Witness of C3: a 4096x2160 mode. -/
theorem mode_valid_rejects_resolution_witness :
    (mode_4k_long_vsync.hdisplay > 2048 ∨ mode_4k_long_vsync.vdisplay > 2048) ∧
    exynos_drm_connector_mode_valid 32 clk_exact mode_4k_long_vsync =
      ⟨.MODE_BAD, [.resolution_out_of_range 4096 4096]⟩ :=
  ⟨by decide, mode_valid_rejects_resolution 32 clk_exact mode_4k_long_vsync (by decide)⟩

/-- Counterexample to C4 as stated: a 4096x2160 mode with a sync length of 300 is
rejected with the resolution line, not with the vertical-timing line. -/
theorem mode_valid_long_vsync_4k :
    vsync_len mode_4k_long_vsync = 300 ∧
    exynos_drm_connector_mode_valid 32 clk_exact mode_4k_long_vsync =
      ⟨.MODE_BAD, [.resolution_out_of_range 4096 4096]⟩ ∧
    (exynos_drm_connector_mode_valid 32 clk_exact mode_4k_long_vsync).log ≠
      [.V_params_out_of_range 4096 2160 (vsync_len mode_4k_long_vsync)
        (vbpd mode_4k_long_vsync) (vfpd mode_4k_long_vsync)] := by
  decide

/-- C4 (amended): a mode with `vsync_end - vsync_start > 256` is always rejected;
the line printed is the vertical-timing line when `hdisplay` and `vdisplay` are
both at most 2048, whatever the horizontal timings and the clock, and it is the
resolution line when `hdisplay` or `vdisplay` exceeds 2048, because that guard
runs first. -/
theorem mode_valid_rejects_vsync (L : Nat) (clk_round_rate : Int → Int)
    (m : drm_display_mode) (h : vsync_len m > 256) :
    (exynos_drm_connector_mode_valid L clk_round_rate m).ret = .MODE_BAD ∧
    (m.hdisplay ≤ 2048 → m.vdisplay ≤ 2048 →
      (exynos_drm_connector_mode_valid L clk_round_rate m).log =
        [.V_params_out_of_range m.hdisplay m.vdisplay (vsync_len m) (vbpd m) (vfpd m)]) ∧
    (m.hdisplay > 2048 ∨ m.vdisplay > 2048 →
      (exynos_drm_connector_mode_valid L clk_round_rate m).log =
        [.resolution_out_of_range m.hdisplay m.hdisplay]) := by
  unfold exynos_drm_connector_mode_valid
  by_cases c1 : m.hdisplay > 2048 ∨ m.vdisplay > 2048
  · rw [if_pos c1]
    exact ⟨rfl, fun a b => by omega, fun _ => rfl⟩
  · rw [if_neg c1, if_pos (Or.inl h)]
    exact ⟨rfl, fun _ _ => rfl, fun c => absurd c c1⟩

/-- Witness of C4 (amended): a 1920x1080 mode with a sync length of 300 gets the
vertical-timing line, a 4096x2160 mode with a sync length of 300 the resolution
line. -/
theorem mode_valid_rejects_vsync_witness :
    vsync_len mode_1080p_long_vsync > 256 ∧
    (exynos_drm_connector_mode_valid 32 clk_exact mode_1080p_long_vsync).ret = .MODE_BAD ∧
    (exynos_drm_connector_mode_valid 32 clk_exact mode_1080p_long_vsync).log =
      [.V_params_out_of_range 1920 1080 300 36 4] ∧
    vsync_len mode_4k_long_vsync > 256 ∧
    (exynos_drm_connector_mode_valid 32 clk_exact mode_4k_long_vsync).ret = .MODE_BAD ∧
    (exynos_drm_connector_mode_valid 32 clk_exact mode_4k_long_vsync).log =
      [.resolution_out_of_range 4096 4096] :=
  have h := mode_valid_rejects_vsync 32 clk_exact mode_1080p_long_vsync (by decide)
  have h4 := mode_valid_rejects_vsync 32 clk_exact mode_4k_long_vsync (by decide)
  ⟨by decide, h.1, h.2.1 (by decide) (by decide), by decide, h4.1,
    h4.2.2 (Or.inl (by decide))⟩

/-- C5: a mode for which `clk_round_rate(vclk, clock * 1000)` differs from
`clock * 1000` (compared as the source does, in `unsigned long`) is rejected, and
so is one for which a rate within `unsigned long` differs as a number; hence an
accepted mode has exactly the requested clock. The 1080p mode at 148500 kHz is
accepted when 148500000 is returned for 148500000 and rejected with the
pixel-clock line when 148000000 is returned. -/
theorem mode_valid_exact_clock :
    (∀ (L : Nat) (clk_round_rate : Int → Int) (m : drm_display_mode),
      to_ulong L (clk_round_rate (ideal_clk L m)) ≠ ideal_clk L m →
      (exynos_drm_connector_mode_valid L clk_round_rate m).ret = .MODE_BAD) ∧
    (∀ (L : Nat) (clk_round_rate : Int → Int) (m : drm_display_mode),
      0 ≤ clk_round_rate (ideal_clk L m) → clk_round_rate (ideal_clk L m) < 2 ^ L →
      clk_round_rate (ideal_clk L m) ≠ ideal_clk L m →
      (exynos_drm_connector_mode_valid L clk_round_rate m).ret = .MODE_BAD) ∧
    (∀ (L : Nat) (clk_round_rate : Int → Int) (m : drm_display_mode),
      (exynos_drm_connector_mode_valid L clk_round_rate m).ret = .MODE_OK →
      to_ulong L (clk_round_rate (ideal_clk L m)) = ideal_clk L m) ∧
    (∀ (L : Nat) (clk_round_rate : Int → Int), 32 ≤ L →
      clk_round_rate 148500000 = 148500000 →
      exynos_drm_connector_mode_valid L clk_round_rate mode_1080p = ⟨.MODE_OK, []⟩) ∧
    (∀ (L : Nat) (clk_round_rate : Int → Int), 32 ≤ L →
      clk_round_rate 148500000 = 148000000 →
      exynos_drm_connector_mode_valid L clk_round_rate mode_1080p =
        ⟨.MODE_BAD, [.requires_pixel_clock 1920 1080 148500000]⟩) := by
  have key : ∀ (L : Nat) (clk_round_rate : Int → Int) (m : drm_display_mode),
      to_ulong L (clk_round_rate (ideal_clk L m)) ≠ ideal_clk L m →
      (exynos_drm_connector_mode_valid L clk_round_rate m).ret = .MODE_BAD := by
    intro L clk m h
    unfold exynos_drm_connector_mode_valid
    split_ifs <;> rfl
  refine ⟨key, ?_, ?_, ?_, ?_⟩
  · intro L clk m h0 h1 hne
    apply key
    rw [to_ulong_of_range L _ h0 h1]
    exact hne
  · intro L clk m hok
    by_contra hne
    have := key L clk m hne
    rw [this] at hok
    exact absurd hok (by decide)
  · intro L clk hL hclk
    apply mode_valid_ok_of_checks L clk mode_1080p (by decide) (by decide) (by decide)
    rw [ideal_clk_1080p L hL, hclk]
    exact to_ulong_of_range L _ (by norm_num)
      (by have : (148500000 : Int) < 2 ^ 32 := by norm_num
          have h32 : (2 : Int) ^ 32 ≤ 2 ^ L := pow_le_pow_right₀ (by norm_num) hL
          omega)
  · intro L clk hL hclk
    have h32 : (2 : Int) ^ 32 ≤ 2 ^ L := pow_le_pow_right₀ (by norm_num) hL
    have h148 : to_ulong L 148000000 = 148000000 :=
      to_ulong_of_range L _ (by norm_num) (by have : (148000000 : Int) < 2 ^ 32 := by norm_num
                                              omega)
    unfold exynos_drm_connector_mode_valid
    rw [if_neg (by decide), if_neg (by decide), if_neg (by decide), ideal_clk_1080p L hL, hclk,
      h148, if_pos (by norm_num)]
    rfl

/-- Witness of C5: the 1080p mode on a 32 bit build with a clock that only
produces 148 MHz. -/
theorem mode_valid_exact_clock_witness :
    to_ulong 32 (clk_148MHz (ideal_clk 32 mode_1080p)) ≠ ideal_clk 32 mode_1080p ∧
    (exynos_drm_connector_mode_valid 32 clk_148MHz mode_1080p).ret = .MODE_BAD ∧
    exynos_drm_connector_mode_valid 32 clk_exact mode_1080p = ⟨.MODE_OK, []⟩ ∧
    exynos_drm_connector_mode_valid 32 clk_148MHz mode_1080p =
      ⟨.MODE_BAD, [.requires_pixel_clock 1920 1080 148500000]⟩ :=
  ⟨by decide, mode_valid_exact_clock.1 32 clk_148MHz mode_1080p (by decide),
    mode_valid_exact_clock.2.2.2.1 32 clk_exact (by decide) rfl,
    mode_valid_exact_clock.2.2.2.2 32 clk_148MHz (by decide) rfl⟩

/-! ## Theorems: the graph topology resolver -/

theorem of_get_child_by_name_reg_loop_eq_find (of_node_cmp : String → String → Int)
    (g : device_tree) (name : String) (reg : Nat) (l : List Nat) :
    of_get_child_by_name_reg_loop of_node_cmp g name reg l =
      l.find? (node_matches of_node_cmp g name reg) := by
  induction l with
  | nil => rfl
  | cons np rest ih =>
    unfold of_get_child_by_name_reg_loop
    rw [List.find?_cons, ih]
    cases hn : (g np).name with
    | none =>
      have hm : node_matches of_node_cmp g name reg np = false := by
        simp [node_matches, node_named, hn]
      simp [hm]
    | some n =>
      by_cases hc : of_node_cmp n name = 0
      · by_cases hr : reg = node_reg g np
        · have hm : node_matches of_node_cmp g name reg np = true := by
            simp [node_matches, node_named, hn, hc, ← hr]
          simp [hm, hc, ← hr]
        · have hm : node_matches of_node_cmp g name reg np = false := by
            simp [node_matches, node_named, hn, hc, hr]
          simp [hm, hc, hr]
      · have hm : node_matches of_node_cmp g name reg np = false := by
          simp [node_matches, node_named, hn, hc]
        simp [hm, hc]

theorem find_unique {p : Nat → Bool} {l : List Nat} {c : Nat} (hmem : c ∈ l)
    (hp : p c = true) (huniq : ∀ c' ∈ l, p c' = true → c' = c) : l.find? p = some c := by
  cases h : l.find? p with
  | none =>
    have := List.find?_eq_none.mp h c hmem
    exact absurd hp this
  | some x =>
    have hx : p x = true := List.find?_some h
    have hxm : x ∈ l := List.mem_of_find?_eq_some h
    rw [huniq x hxm hx]

theorem find_none_of_all_false {p : Nat → Bool} {l : List Nat}
    (h : ∀ c ∈ l, p c = false) : l.find? p = none := by
  apply List.find?_eq_none.mpr
  intro c hc
  simp [h c hc]

theorem of_get_child_by_name_reg_the_child (of_node_cmp : String → String → Int)
    (g : device_tree) (p : Nat) (name : String) (reg : Nat) (c : Nat)
    (h : the_child of_node_cmp g p name reg c) :
    of_get_child_by_name_reg of_node_cmp g p name reg = some c := by
  unfold of_get_child_by_name_reg
  rw [of_get_child_by_name_reg_loop_eq_find]
  exact find_unique h.1 h.2.1 h.2.2

theorem of_get_child_by_name_reg_none (of_node_cmp : String → String → Int)
    (g : device_tree) (p : Nat) (name : String) (reg : Nat)
    (h : ∀ c ∈ (g p).children, node_matches of_node_cmp g name reg c = false) :
    of_get_child_by_name_reg of_node_cmp g p name reg = none := by
  unfold of_get_child_by_name_reg
  rw [of_get_child_by_name_reg_loop_eq_find]
  exact find_none_of_all_false h

theorem port_scope_unwrapped (of_node_cmp : String → String → Int) (g : device_tree)
    (N : Nat) (h : ∀ c ∈ (g N).children, node_named of_node_cmp g "ports" c = false) :
    port_scope of_node_cmp g N = N := by
  unfold port_scope of_get_child_by_name
  rw [find_none_of_all_false h]

theorem port_scope_wrapped (of_node_cmp : String → String → Int) (g : device_tree)
    (N W : Nat) (h : the_ports_child of_node_cmp g N W) :
    port_scope of_node_cmp g N = W := by
  unfold port_scope of_get_child_by_name
  rw [find_unique h.1 h.2.1 h.2.2]

theorem remote_port_parent_unwrapped (of_node_cmp : String → String → Int) (g : device_tree)
    (EP E Q D : Nat) (dn : String) (hremote : (g EP).remote_endpoint = some E)
    (hE : (g E).parent = some Q) (hQ : (g Q).parent = some D)
    (hname : (g D).name = some dn) (hcmp : of_node_cmp dn "ports" ≠ 0) :
    of_graph_get_remote_port_parent of_node_cmp g EP = .ret (some D) := by
  unfold of_graph_get_remote_port_parent
  rw [hremote]
  simp [of_graph_get_remote_port_parent_loop, of_get_next_parent, hE, hQ, hname, hcmp]

theorem remote_port_parent_wrapped (of_node_cmp : String → String → Int) (g : device_tree)
    (EP E Q W D : Nat) (hremote : (g EP).remote_endpoint = some E)
    (hE : (g E).parent = some Q) (hQ : (g Q).parent = some W)
    (hW : node_named of_node_cmp g "ports" W = true) (hD : (g W).parent = some D) :
    of_graph_get_remote_port_parent of_node_cmp g EP = .ret (some D) := by
  unfold of_graph_get_remote_port_parent
  rw [hremote]
  unfold node_named at hW
  cases hn : (g W).name with
  | none => simp [hn] at hW
  | some wn =>
    simp [hn] at hW
    simp [of_graph_get_remote_port_parent_loop, of_get_next_parent, hE, hQ, hn, hW, hD]

/-- C6: let the local node `N` have the port `P` with reg 3, either directly under
`N` (which has no "ports" child) or under the "ports" child of `N`; let `P` have
the endpoint `EP` with reg 0 whose remote-endpoint is `E`, and let `E` sit in a
port `Q` that is either directly under the device node `D` (a named node not
named "ports") or under a "ports" node under `D`. Then
`exynos_dpi_of_find_panel_node` returns `D`, in all four layouts. -/
theorem find_panel_node_four_layouts (of_node_cmp : String → String → Int) (g : device_tree)
    (N P EP E Q D : Nat)
    (hlocal :
      ((∀ c ∈ (g N).children, node_named of_node_cmp g "ports" c = false) ∧
        the_child of_node_cmp g N "port" FIMD_PORT_RGB P) ∨
      (∃ W, the_ports_child of_node_cmp g N W ∧
        the_child of_node_cmp g W "port" FIMD_PORT_RGB P))
    (hep : the_child of_node_cmp g P "endpoint" 0 EP)
    (hremote : (g EP).remote_endpoint = some E)
    (hE : (g E).parent = some Q)
    (hD :
      ((g Q).parent = some D ∧ ∃ dn, (g D).name = some dn ∧ of_node_cmp dn "ports" ≠ 0) ∨
      (∃ W, (g Q).parent = some W ∧ node_named of_node_cmp g "ports" W = true ∧
        (g W).parent = some D)) :
    exynos_dpi_of_find_panel_node of_node_cmp g N = .ret (some D) := by
  have hport : of_graph_get_port_by_reg of_node_cmp g N FIMD_PORT_RGB = some P := by
    unfold of_graph_get_port_by_reg
    rcases hlocal with ⟨hno, hP⟩ | ⟨W, hW, hP⟩
    · rw [port_scope_unwrapped of_node_cmp g N hno]
      exact of_get_child_by_name_reg_the_child of_node_cmp g N "port" FIMD_PORT_RGB P hP
    · rw [port_scope_wrapped of_node_cmp g N W hW]
      exact of_get_child_by_name_reg_the_child of_node_cmp g W "port" FIMD_PORT_RGB P hP
  have hend : of_graph_get_endpoint_by_reg of_node_cmp g P 0 = some EP :=
    of_get_child_by_name_reg_the_child of_node_cmp g P "endpoint" 0 EP hep
  unfold exynos_dpi_of_find_panel_node
  rw [hport]
  simp only [hend]
  rcases hD with ⟨hQ, dn, hname, hcmp⟩ | ⟨W, hQ, hW, hWD⟩
  · exact remote_port_parent_unwrapped of_node_cmp g EP E Q D dn hremote hE hQ hname hcmp
  · exact remote_port_parent_wrapped of_node_cmp g EP E Q W D hremote hE hQ hW hWD

/-- Witness of C6: the four layouts of the example tree. -/
theorem find_panel_node_four_layouts_witness :
    exynos_dpi_of_find_panel_node strcasecmp_model (example_tree false false) 0 = .ret (some 10) ∧
    exynos_dpi_of_find_panel_node strcasecmp_model (example_tree true false) 0 = .ret (some 10) ∧
    exynos_dpi_of_find_panel_node strcasecmp_model (example_tree false true) 0 = .ret (some 10) ∧
    exynos_dpi_of_find_panel_node strcasecmp_model (example_tree true true) 0 = .ret (some 10) :=
  ⟨find_panel_node_four_layouts strcasecmp_model (example_tree false false) 0 2 3 13 12 10
      (Or.inl ⟨by decide, by decide, by decide, by decide⟩) ⟨by decide, by decide, by decide⟩
      rfl rfl (Or.inl ⟨rfl, "panel", rfl, by decide⟩),
    find_panel_node_four_layouts strcasecmp_model (example_tree true false) 0 2 3 13 12 10
      (Or.inr ⟨1, ⟨by decide, by decide, by decide⟩, by decide, by decide, by decide⟩)
      ⟨by decide, by decide, by decide⟩
      rfl rfl (Or.inl ⟨rfl, "panel", rfl, by decide⟩),
    find_panel_node_four_layouts strcasecmp_model (example_tree false true) 0 2 3 13 12 10
      (Or.inl ⟨by decide, by decide, by decide, by decide⟩) ⟨by decide, by decide, by decide⟩
      rfl rfl (Or.inr ⟨11, rfl, by decide, rfl⟩),
    find_panel_node_four_layouts strcasecmp_model (example_tree true true) 0 2 3 13 12 10
      (Or.inr ⟨1, ⟨by decide, by decide, by decide⟩, by decide, by decide, by decide⟩)
      ⟨by decide, by decide, by decide⟩
      rfl rfl (Or.inr ⟨11, rfl, by decide, rfl⟩)⟩

/-- C7: `exynos_dpi_of_find_panel_node` returns `NULL`, without a fault, when the
search scope has no child named "port" with reg 3, when the port found has no
child named "endpoint" with reg 0 (a missing reg counting as 0), and when the
endpoint found has no remote-endpoint. -/
theorem find_panel_node_not_found (of_node_cmp : String → String → Int) (g : device_tree)
    (N : Nat) :
    ((∀ c ∈ (g (port_scope of_node_cmp g N)).children,
        node_matches of_node_cmp g "port" FIMD_PORT_RGB c = false) →
      exynos_dpi_of_find_panel_node of_node_cmp g N = .ret none) ∧
    (∀ P, of_graph_get_port_by_reg of_node_cmp g N FIMD_PORT_RGB = some P →
      (∀ c ∈ (g P).children, node_matches of_node_cmp g "endpoint" 0 c = false) →
      exynos_dpi_of_find_panel_node of_node_cmp g N = .ret none) ∧
    (∀ P EP, of_graph_get_port_by_reg of_node_cmp g N FIMD_PORT_RGB = some P →
      of_graph_get_endpoint_by_reg of_node_cmp g P 0 = some EP →
      (g EP).remote_endpoint = none →
      exynos_dpi_of_find_panel_node of_node_cmp g N = .ret none) := by
  refine ⟨?_, ?_, ?_⟩
  · intro h
    have hport : of_graph_get_port_by_reg of_node_cmp g N FIMD_PORT_RGB = none := by
      unfold of_graph_get_port_by_reg
      exact of_get_child_by_name_reg_none of_node_cmp g _ "port" FIMD_PORT_RGB h
    unfold exynos_dpi_of_find_panel_node
    rw [hport]
  · intro P hport h
    have hend : of_graph_get_endpoint_by_reg of_node_cmp g P 0 = none := by
      unfold of_graph_get_endpoint_by_reg
      exact of_get_child_by_name_reg_none of_node_cmp g P "endpoint" 0 h
    unfold exynos_dpi_of_find_panel_node
    rw [hport]
    simp only [hend]
  · intro P EP hport hend hremote
    unfold exynos_dpi_of_find_panel_node
    rw [hport]
    simp only [hend]
    unfold of_graph_get_remote_port_parent
    rw [hremote]
    rfl

/-- Witness of C7: the three example trees without a panel. -/
theorem find_panel_node_not_found_witness :
    exynos_dpi_of_find_panel_node strcasecmp_model (example_tree_no_panel 0) 0 = .ret none ∧
    exynos_dpi_of_find_panel_node strcasecmp_model (example_tree_no_panel 1) 0 = .ret none ∧
    exynos_dpi_of_find_panel_node strcasecmp_model (example_tree_no_panel 2) 0 = .ret none :=
  ⟨(find_panel_node_not_found strcasecmp_model (example_tree_no_panel 0) 0).1 (by decide),
    (find_panel_node_not_found strcasecmp_model (example_tree_no_panel 1) 0).2.1 2 (by decide)
      (by decide),
    (find_panel_node_not_found strcasecmp_model (example_tree_no_panel 2) 0).2.2 2 3 (by decide)
      (by decide) rfl⟩

/-! ## Theorems: the power state machine -/

theorem dpms_consts_ne (K : dpms_consts) :
    K.DRM_MODE_DPMS_ON ≠ K.DRM_MODE_DPMS_STANDBY ∧
    K.DRM_MODE_DPMS_ON ≠ K.DRM_MODE_DPMS_SUSPEND ∧
    K.DRM_MODE_DPMS_ON ≠ K.DRM_MODE_DPMS_OFF := by
  have h := K.distinct
  simp only [List.nodup_cons, List.mem_cons, not_or] at h
  exact ⟨h.1.1, h.1.2.1, h.1.2.2.1⟩

theorem dpms_to_on (K : dpms_consts) (ctx : exynos_dpi) :
    exynos_dpi_dpms K ctx K.DRM_MODE_DPMS_ON =
      ({ ctx with dpms_mode := K.DRM_MODE_DPMS_ON },
        if ctx.dpms_mode ≠ K.DRM_MODE_DPMS_ON then exynos_dpi_poweron ctx else []) := by
  simp [exynos_dpi_dpms]

theorem dpms_to_other (K : dpms_consts) (ctx : exynos_dpi) (mode : Int)
    (hne : mode ≠ K.DRM_MODE_DPMS_ON)
    (h : mode = K.DRM_MODE_DPMS_STANDBY ∨ mode = K.DRM_MODE_DPMS_SUSPEND ∨
      mode = K.DRM_MODE_DPMS_OFF) :
    exynos_dpi_dpms K ctx mode =
      ({ ctx with dpms_mode := mode },
        if ctx.dpms_mode = K.DRM_MODE_DPMS_ON then exynos_dpi_poweroff ctx else []) := by
  simp [exynos_dpi_dpms, hne, h]

/-- C8: with a panel attached and a requested state among On, Standby, Suspend and
Off, `exynos_dpi_dpms` issues exactly the call `drm_panel_enable` when the new
state is On and the stored one is not, exactly the call `drm_panel_disable` when
the stored state is On and the new one is not, and no call otherwise; the stored
state is the new state afterwards. From Off, the sequence On, On, Standby, Off
issues enable, nothing, disable, nothing. -/
theorem dpms_panel_calls (K : dpms_consts) (ctx : exynos_dpi) (panel : Nat) (new : Int)
    (hpanel : ctx.panel = some panel)
    (hnew : new = K.DRM_MODE_DPMS_ON ∨ new = K.DRM_MODE_DPMS_STANDBY ∨
      new = K.DRM_MODE_DPMS_SUSPEND ∨ new = K.DRM_MODE_DPMS_OFF) :
    (new = K.DRM_MODE_DPMS_ON → ctx.dpms_mode ≠ K.DRM_MODE_DPMS_ON →
      (exynos_dpi_dpms K ctx new).2 = [.drm_panel_enable panel]) ∧
    (ctx.dpms_mode = K.DRM_MODE_DPMS_ON → new ≠ K.DRM_MODE_DPMS_ON →
      (exynos_dpi_dpms K ctx new).2 = [.drm_panel_disable panel]) ∧
    (¬ (new = K.DRM_MODE_DPMS_ON ∧ ctx.dpms_mode ≠ K.DRM_MODE_DPMS_ON) →
      ¬ (ctx.dpms_mode = K.DRM_MODE_DPMS_ON ∧ new ≠ K.DRM_MODE_DPMS_ON) →
      (exynos_dpi_dpms K ctx new).2 = []) ∧
    (exynos_dpi_dpms K ctx new).1 = { ctx with dpms_mode := new } ∧
    (ctx.dpms_mode = K.DRM_MODE_DPMS_OFF →
      (exynos_dpi_dpms_seq K ctx [K.DRM_MODE_DPMS_ON, K.DRM_MODE_DPMS_ON,
        K.DRM_MODE_DPMS_STANDBY, K.DRM_MODE_DPMS_OFF]).2 =
        [[.drm_panel_enable panel], [], [.drm_panel_disable panel], []]) := by
  obtain ⟨h1, h2, h3⟩ := dpms_consts_ne K
  have hon : exynos_dpi_poweron ctx = [.drm_panel_enable panel] := by
    simp [exynos_dpi_poweron, hpanel]
  have hoff : exynos_dpi_poweroff ctx = [.drm_panel_disable panel] := by
    simp [exynos_dpi_poweroff, hpanel]
  refine ⟨?_, ?_, ?_, ?_, ?_⟩
  · intro hn ho
    subst hn
    rw [dpms_to_on]
    simp [ho, hon]
  · intro ho hn
    have hrest := hnew.resolve_left hn
    rw [dpms_to_other K ctx new hn hrest]
    simp [ho, hoff]
  · intro ha hb
    by_cases hn : new = K.DRM_MODE_DPMS_ON
    · subst hn
      rw [dpms_to_on]
      have : ctx.dpms_mode = K.DRM_MODE_DPMS_ON := by
        by_contra hc
        exact ha ⟨rfl, hc⟩
      simp [this]
    · rw [dpms_to_other K ctx new hn (hnew.resolve_left hn)]
      have : ctx.dpms_mode ≠ K.DRM_MODE_DPMS_ON := fun hc => hb ⟨hc, hn⟩
      simp [this]
  · simp [exynos_dpi_dpms]
  · intro hoffst
    have hstart : ctx.dpms_mode ≠ K.DRM_MODE_DPMS_ON := by
      rw [hoffst]
      exact fun h => h3 h.symm
    simp only [exynos_dpi_dpms_seq]
    rw [dpms_to_on K ctx]
    simp only [dpms_to_on]
    rw [dpms_to_other K _ K.DRM_MODE_DPMS_STANDBY (fun h => h1 h.symm) (Or.inl rfl)]
    rw [dpms_to_other K _ K.DRM_MODE_DPMS_OFF (fun h => h3 h.symm) (Or.inr (Or.inr rfl))]
    simp [hstart, hon, exynos_dpi_poweroff, hpanel, h1.symm]

/-- Witness of C8: a context in state Off with panel 7, asked to switch on. -/
theorem dpms_panel_calls_witness :
    ctx_with_panel.panel = some 7 ∧
    (exynos_dpi_dpms drm_mode_h ctx_with_panel 0).2 = [.drm_panel_enable 7] ∧
    (exynos_dpi_dpms drm_mode_h ctx_with_panel 0).1 = { ctx_with_panel with dpms_mode := 0 } ∧
    (exynos_dpi_dpms_seq drm_mode_h ctx_with_panel [0, 0, 1, 3]).2 =
      [[.drm_panel_enable 7], [], [.drm_panel_disable 7], []] :=
  have h := dpms_panel_calls drm_mode_h ctx_with_panel 7 0 rfl (Or.inl rfl)
  ⟨rfl, h.1 rfl (by decide), h.2.2.2.1, h.2.2.2.2 rfl⟩

/-! ## Theorems: the mode list -/

/-- Counterexample to C9 as stated: with a DDC adapter configured and no answer
to the EDID read, `exynos_dpi_get_modes` returns `-ENODEV` (-19), not the count 0. -/
theorem get_modes_no_sink_is_error :
    ctx_with_panel.ddc_adpt = some 4 ∧ drm_get_edid_no_sink 4 = none ∧
    exynos_dpi_get_modes errno_h drm_get_edid_no_sink (fun _ => 0) ctx_with_panel = (-19, []) ∧
    (exynos_dpi_get_modes errno_h drm_get_edid_no_sink (fun _ => 0) ctx_with_panel).1 ≠ 0 := by
  decide

/-- C9 (amended): `exynos_dpi_get_modes` returns the negative value `-ENODEV`,
and does nothing else, both when no DDC adapter is configured and when one is
configured but the EDID read yields nothing; when an EDID is read it returns the
count of `drm_add_edid_modes`. -/
theorem get_modes_result (E : errno_consts) (drm_get_edid : Nat → Option edid)
    (drm_add_edid_modes : edid → Int) (ctx : exynos_dpi) :
    -E.ENODEV < 0 ∧
    (ctx.ddc_adpt = none →
      exynos_dpi_get_modes E drm_get_edid drm_add_edid_modes ctx = (-E.ENODEV, [])) ∧
    (∀ adpt, ctx.ddc_adpt = some adpt → drm_get_edid adpt = none →
      exynos_dpi_get_modes E drm_get_edid drm_add_edid_modes ctx = (-E.ENODEV, [])) ∧
    (∀ adpt e, ctx.ddc_adpt = some adpt → drm_get_edid adpt = some e →
      (exynos_dpi_get_modes E drm_get_edid drm_add_edid_modes ctx).1 =
        drm_add_edid_modes e) := by
  refine ⟨by have := E.ENODEV_pos; omega, ?_, ?_, ?_⟩
  · intro h
    simp [exynos_dpi_get_modes, h]
  · intro adpt h hn
    simp [exynos_dpi_get_modes, h, hn]
  · intro adpt e h he
    simp [exynos_dpi_get_modes, h, he]

/-- Witness of C9 (amended): no adapter, an adapter without a sink, and an adapter
with a monitor for which the DRM core adds 12 modes. -/
theorem get_modes_result_witness :
    exynos_dpi_get_modes errno_h drm_get_edid_monitor (fun _ => 12) exynos_dpi_zeroed =
      (-19, []) ∧
    exynos_dpi_get_modes errno_h drm_get_edid_no_sink (fun _ => 12) ctx_with_panel =
      (-19, []) ∧
    (exynos_dpi_get_modes errno_h drm_get_edid_monitor (fun _ => 12) ctx_with_panel).1 = 12 :=
  ⟨(get_modes_result errno_h drm_get_edid_monitor (fun _ => 12) exynos_dpi_zeroed).2.1 rfl,
    (get_modes_result errno_h drm_get_edid_no_sink (fun _ => 12) ctx_with_panel).2.2.1 4 rfl rfl,
    (get_modes_result errno_h drm_get_edid_monitor (fun _ => 12) ctx_with_panel).2.2.2 4
      { handle := 1, width_cm := 52, height_cm := 29 } rfl rfl⟩

/-! ## Theorems: probe -/

theorem not_mem_component_del (dev : device) (components : List Nat) :
    dev.id ∉ exynos_drm_component_del dev components := by
  simp [exynos_drm_component_del]

theorem probe_no_ddc (K : dpms_consts) (E : errno_consts) (env : probe_env) (g : device_tree)
    (dev : device) (s : driver_state) (addr : Nat)
    (hadd : env.component_add = 0) (halloc : env.devm_kzalloc = some addr)
    (hclk : IS_ERR env.devm_clk_get = false) (hddc : (g dev.of_node).ddc = none) :
    (exynos_dpi_probe K E env g dev s).1 = .NULL ∧
    dev.id ∉ (exynos_dpi_probe K E env g dev s).2.components := by
  have hneg : -E.ENODEV < 0 := by have := E.ENODEV_pos; omega
  have hparse : ∀ ctx, (exynos_dpi_parse_dt E env g dev.of_node ctx).1 = -E.ENODEV := by
    intro ctx
    simp [exynos_dpi_parse_dt, hddc]
  simp only [exynos_dpi_probe, hadd, halloc, hclk, hparse, hneg, err_del_component]
  simp [not_mem_component_del]

/-- C10: the code at the failing input. For a device without a "ddc" phandle,
with registration, allocation and the clock succeeding, `exynos_dpi_probe`
returns `NULL` and the device is no longer registered as a component; `NULL` is
also what it returns when the allocation fails, when the clock is unavailable and
when the adapter behind "ddc" is not there yet, so the `-ENODEV` of
`exynos_dpi_parse_dt` does not reach the caller. -/
theorem probe_no_ddc_returns_NULL :
    ((example_tree false false) fimd_dev.of_node).ddc = none ∧
    (exynos_dpi_parse_dt errno_h env_ok (example_tree false false) fimd_dev.of_node
      exynos_dpi_zeroed).1 = -19 ∧
    (exynos_dpi_probe drm_mode_h errno_h env_ok (example_tree false false) fimd_dev
      state_initial).1 = .NULL ∧
    fimd_dev.id ∉ (exynos_dpi_probe drm_mode_h errno_h env_ok (example_tree false false)
      fimd_dev state_initial).2.components ∧
    (exynos_dpi_probe drm_mode_h errno_h { env_ok with devm_kzalloc := none }
      example_tree_ddc fimd_dev state_initial).1 = .NULL ∧
    (exynos_dpi_probe drm_mode_h errno_h { env_ok with devm_clk_get := .ERR_PTR (-2) }
      example_tree_ddc fimd_dev state_initial).1 = .NULL ∧
    (exynos_dpi_probe drm_mode_h errno_h
      { env_ok with of_find_i2c_adapter_by_node := fun _ => none }
      example_tree_ddc fimd_dev state_initial).1 = .NULL ∧
    (exynos_dpi_probe drm_mode_h errno_h env_ok example_tree_ddc fimd_dev state_initial).1 =
      .exynos_dpi_display := by
  decide

/-! ## Theorems: detection and mode commit -/

/-- C11: `exynos_dpi_detect` returns connected if and only if a DDC adapter is
configured and `drm_probe_ddc` succeeds on it; otherwise, and in particular
without an adapter, it returns disconnected; the panel and its attachment have no
influence on the result. -/
theorem detect_connected_iff (drm_probe_ddc : Nat → Bool) (ctx : exynos_dpi)
    (attached : List Nat) :
    ((exynos_dpi_detect drm_probe_ddc ctx attached).1 = .connector_status_connected ↔
      ∃ adpt, ctx.ddc_adpt = some adpt ∧ drm_probe_ddc adpt = true) ∧
    ((¬ ∃ adpt, ctx.ddc_adpt = some adpt ∧ drm_probe_ddc adpt = true) →
      (exynos_dpi_detect drm_probe_ddc ctx attached).1 = .connector_status_disconnected) ∧
    (ctx.ddc_adpt = none →
      (exynos_dpi_detect drm_probe_ddc ctx attached).1 = .connector_status_disconnected) ∧
    (∀ (panel : Option Nat) (attached2 : List Nat),
      (exynos_dpi_detect drm_probe_ddc { ctx with panel := panel } attached2).1 =
        (exynos_dpi_detect drm_probe_ddc ctx attached).1) := by
  have hval : ∀ (c : exynos_dpi) (att : List Nat),
      (exynos_dpi_detect drm_probe_ddc c att).1 =
        match c.ddc_adpt with
        | some a =>
          if drm_probe_ddc a then drm_connector_status.connector_status_connected
          else drm_connector_status.connector_status_disconnected
        | none => drm_connector_status.connector_status_disconnected := by
    intro c att
    unfold exynos_dpi_detect
    cases c.ddc_adpt with
    | none => rfl
    | some a => by_cases hp : drm_probe_ddc a = true <;> simp [hp]
  refine ⟨?_, ?_, ?_, ?_⟩
  · rw [hval]
    cases h : ctx.ddc_adpt with
    | none => simp
    | some a => by_cases hp : drm_probe_ddc a = true <;> simp [hp]
  · intro hno
    rw [hval]
    cases h : ctx.ddc_adpt with
    | none => rfl
    | some a =>
      have hp : drm_probe_ddc a ≠ true := fun hp => hno ⟨a, h, hp⟩
      simp [hp]
  · intro h
    rw [hval, h]
  · intro panel attached2
    rw [hval, hval]

/-- Witness of C11: no adapter gives disconnected although panel 7 is there; an
adapter with an answering sink gives connected. -/
theorem detect_connected_iff_witness :
    (exynos_dpi_detect (fun _ => true) { ctx_with_panel with ddc_adpt := none } []).1 =
      .connector_status_disconnected ∧
    (exynos_dpi_detect (fun _ => true) ctx_with_panel []).1 = .connector_status_connected ∧
    (exynos_dpi_detect (fun _ => false) ctx_with_panel []).1 =
      .connector_status_disconnected :=
  ⟨(detect_connected_iff (fun _ => true) { ctx_with_panel with ddc_adpt := none } []).2.2.1 rfl,
    (detect_connected_iff (fun _ => true) ctx_with_panel []).1.mpr ⟨4, rfl, rfl⟩,
    (detect_connected_iff (fun _ => false) ctx_with_panel []).2.1 (by
      rintro ⟨a, _, h⟩
      exact absurd h (by decide))⟩

/-- C12: `exynos_dpi_mode_set` issues exactly one call: `exynos4412_qos(3, 3)`
when the pixel clock of the mode is at least 135000 kHz, `exynos4412_qos(0, 0)`
when it is below; 135000 itself gives `exynos4412_qos(3, 3)`. -/
theorem mode_set_qos (mode : drm_display_mode) :
    (mode.clock ≥ 135000 → exynos_dpi_mode_set mode = [.exynos4412_qos 3 3]) ∧
    (mode.clock < 135000 → exynos_dpi_mode_set mode = [.exynos4412_qos 0 0]) ∧
    (exynos_dpi_mode_set mode).length = 1 ∧
    (mode.clock = 135000 → exynos_dpi_mode_set mode = [.exynos4412_qos 3 3]) := by
  unfold exynos_dpi_mode_set
  refine ⟨?_, ?_, ?_, ?_⟩
  · intro h
    rw [if_pos h]
  · intro h
    rw [if_neg (by omega)]
  · split_ifs <;> rfl
  · intro h
    rw [if_pos (by omega)]

/-- Witness of C12: the clocks 135000, 134999 and 148500 kHz. -/
theorem mode_set_qos_witness :
    exynos_dpi_mode_set (mode_1080p_clock 135000) = [.exynos4412_qos 3 3] ∧
    exynos_dpi_mode_set (mode_1080p_clock 134999) = [.exynos4412_qos 0 0] ∧
    exynos_dpi_mode_set mode_1080p = [.exynos4412_qos 3 3] :=
  ⟨(mode_set_qos (mode_1080p_clock 135000)).2.2.2 rfl,
    (mode_set_qos (mode_1080p_clock 134999)).2.1 (by decide),
    (mode_set_qos mode_1080p).1 (by decide)⟩

/-! ## Theorems: the upward walk and the port search -/

theorem remote_port_parent_no_parent (of_node_cmp : String → String → Int) (g : device_tree)
    (EP E : Nat) (hremote : (g EP).remote_endpoint = some E) (hE : (g E).parent = none) :
    of_graph_get_remote_port_parent of_node_cmp g EP = .ret none := by
  unfold of_graph_get_remote_port_parent
  rw [hremote]
  simp [of_graph_get_remote_port_parent_loop, of_get_next_parent, hE]

theorem remote_port_parent_no_grandparent (of_node_cmp : String → String → Int)
    (g : device_tree) (EP E Q : Nat) (hremote : (g EP).remote_endpoint = some E)
    (hE : (g E).parent = some Q) (hQ : (g Q).parent = none) :
    of_graph_get_remote_port_parent of_node_cmp g EP = .oops := by
  unfold of_graph_get_remote_port_parent
  rw [hremote]
  simp [of_graph_get_remote_port_parent_loop, of_get_next_parent, hE, hQ]

/-- C13: the code at the failing input. When the remote endpoint (node 13) has no
parent, `of_graph_get_remote_port_parent` returns `NULL`; when its parent (node
12) has no parent, the walk reads `np->name` of the missing node at `depth == 2`
and faults instead of returning `NULL`. -/
theorem remote_port_parent_orphan_port :
    ((example_tree_orphan 0) 3).remote_endpoint = some 13 ∧
    ((example_tree_orphan 0) 13).parent = none ∧
    of_graph_get_remote_port_parent strcasecmp_model (example_tree_orphan 0) 3 = .ret none ∧
    ((example_tree_orphan 1) 3).remote_endpoint = some 13 ∧
    ((example_tree_orphan 1) 13).parent = some 12 ∧
    ((example_tree_orphan 1) 12).parent = none ∧
    of_graph_get_remote_port_parent strcasecmp_model (example_tree_orphan 1) 3 = .oops ∧
    of_graph_get_remote_port_parent strcasecmp_model (example_tree_orphan 1) 3 ≠ .ret none := by
  decide

/-- C14: when `of_graph_get_remote_port_parent` returns a node `x` for an endpoint
whose remote-endpoint is `E`, then `E` has a parent `Q` and a grandparent `G`, and
`x` is `G` if the name of `G` is not "ports" and the parent of `G` if it is; so `x`
is two or three parent links above `E`, and in a tree (where `Q` is neither its
own parent nor its own grandparent) `x` is not `Q`, the direct parent of `E`. -/
theorem remote_port_parent_some (of_node_cmp : String → String → Int) (g : device_tree)
    (EP E x : Nat) (hremote : (g EP).remote_endpoint = some E)
    (hret : of_graph_get_remote_port_parent of_node_cmp g EP = .ret (some x)) :
    ∃ Q G gname, (g E).parent = some Q ∧ (g Q).parent = some G ∧ (g G).name = some gname ∧
      ((of_node_cmp gname "ports" ≠ 0 ∧ x = G) ∨
        (of_node_cmp gname "ports" = 0 ∧ (g G).parent = some x)) ∧
      ((g Q).parent ≠ some Q → (∀ G2, (g Q).parent = some G2 → (g G2).parent ≠ some Q) →
        x ≠ Q) := by
  unfold of_graph_get_remote_port_parent at hret
  rw [hremote] at hret
  cases hE : (g E).parent with
  | none => simp [of_graph_get_remote_port_parent_loop, of_get_next_parent, hE] at hret
  | some Q =>
    cases hQ : (g Q).parent with
    | none => simp [of_graph_get_remote_port_parent_loop, of_get_next_parent, hE, hQ] at hret
    | some G =>
      cases hG : (g G).name with
      | none =>
        simp [of_graph_get_remote_port_parent_loop, of_get_next_parent, hE, hQ, hG] at hret
      | some gname =>
        refine ⟨Q, G, gname, rfl, hQ, hG, ?_⟩
        by_cases hc : of_node_cmp gname "ports" = 0
        · simp [of_graph_get_remote_port_parent_loop, of_get_next_parent, hE, hQ, hG, hc]
            at hret
          refine ⟨Or.inr ⟨hc, hret⟩, ?_⟩
          intro _ h2 hx
          exact h2 G hQ (hx ▸ hret)
        · simp [of_graph_get_remote_port_parent_loop, of_get_next_parent, hE, hQ, hG, hc]
            at hret
          refine ⟨Or.inl ⟨hc, hret.symm⟩, ?_⟩
          intro h1 _ hx
          exact h1 (by rw [hQ, hret, hx])

/-- Witness of C14: the example tree with the remote port directly under the
panel (node 10), and with the remote port under a "ports" node. -/
theorem remote_port_parent_some_witness :
    of_graph_get_remote_port_parent strcasecmp_model (example_tree false false) 3 =
      .ret (some 10) ∧
    (∃ Q G gname, ((example_tree false false) 13).parent = some Q ∧
      ((example_tree false false) Q).parent = some G ∧
      ((example_tree false false) G).name = some gname ∧
      ((strcasecmp_model gname "ports" ≠ 0 ∧ 10 = G) ∨
        (strcasecmp_model gname "ports" = 0 ∧ ((example_tree false false) G).parent = some 10)) ∧
      (((example_tree false false) Q).parent ≠ some Q →
        (∀ G2, ((example_tree false false) Q).parent = some G2 →
          ((example_tree false false) G2).parent ≠ some Q) → 10 ≠ Q)) :=
  ⟨by decide,
    remote_port_parent_some strcasecmp_model (example_tree false false) 3 13 10 rfl (by decide)⟩

/-- C15: `of_graph_get_port_by_reg` searches the children of the "ports" child of
the node when there is one and the children of the node itself otherwise, and
returns the first child in order that is named "port" and whose reg, 0 when the
node has none, equals the id; it returns `NULL` when no child is like that. -/
theorem port_by_reg_first_match (of_node_cmp : String → String → Int) (g : device_tree)
    (N reg : Nat) :
    (of_get_child_by_name of_node_cmp g N "ports" = none ↔
      ∀ c ∈ (g N).children, node_named of_node_cmp g "ports" c = false) ∧
    (of_get_child_by_name of_node_cmp g N "ports" = none → port_scope of_node_cmp g N = N) ∧
    (∀ W, of_get_child_by_name of_node_cmp g N "ports" = some W →
      port_scope of_node_cmp g N = W) ∧
    (∀ c, of_graph_get_port_by_reg of_node_cmp g N reg = some c ↔
      ∃ pre post, (g (port_scope of_node_cmp g N)).children = pre ++ c :: post ∧
        node_matches of_node_cmp g "port" reg c = true ∧
        ∀ x ∈ pre, node_matches of_node_cmp g "port" reg x = false) ∧
    (of_graph_get_port_by_reg of_node_cmp g N reg = none ↔
      ∀ x ∈ (g (port_scope of_node_cmp g N)).children,
        node_matches of_node_cmp g "port" reg x = false) ∧
    (∀ c, node_matches of_node_cmp g "port" reg c = true ↔
      ∃ n, (g c).name = some n ∧ of_node_cmp n "port" = 0 ∧ reg = ((g c).reg).getD 0) := by
  have hfind : of_graph_get_port_by_reg of_node_cmp g N reg =
      (g (port_scope of_node_cmp g N)).children.find? (node_matches of_node_cmp g "port" reg) := by
    unfold of_graph_get_port_by_reg of_get_child_by_name_reg
    exact of_get_child_by_name_reg_loop_eq_find of_node_cmp g "port" reg _
  refine ⟨?_, ?_, ?_, ?_, ?_, ?_⟩
  · unfold of_get_child_by_name
    rw [List.find?_eq_none]
    simp
  · intro h
    unfold port_scope
    rw [h]
  · intro W h
    unfold port_scope
    rw [h]
  · intro c
    rw [hfind, List.find?_eq_some]
    constructor
    · rintro ⟨hc, pre, post, hl, hpre⟩
      exact ⟨pre, post, hl, hc, fun x hx => by simpa using hpre x hx⟩
    · rintro ⟨pre, post, hl, hc, hpre⟩
      exact ⟨hc, pre, post, hl, fun x hx => by simp [hpre x hx]⟩
  · rw [hfind, List.find?_eq_none]
    simp
  · intro c
    unfold node_matches node_named node_reg
    cases hn : (g c).name with
    | none => simp
    | some n =>
      cases hr : (g c).reg with
      | none => simp
      | some r => simp

/-- Witness of C15: a port directly under the node is not found when the node has
a "ports" child; the port under "ports" is found in the wrapped example tree. -/
theorem port_by_reg_first_match_witness :
    of_graph_get_port_by_reg strcasecmp_model example_tree_shadowed 0 3 = none ∧
    port_scope strcasecmp_model example_tree_shadowed 0 = 1 ∧
    of_graph_get_port_by_reg strcasecmp_model (example_tree true false) 0 3 = some 2 :=
  ⟨(port_by_reg_first_match strcasecmp_model example_tree_shadowed 0 3).2.2.2.2.1.mpr (by decide),
    (port_by_reg_first_match strcasecmp_model example_tree_shadowed 0 3).2.2.1 1 (by decide),
    ((port_by_reg_first_match strcasecmp_model (example_tree true false) 0 3).2.2.2.1 2).mpr
      ⟨[], [], by decide, by decide, by decide⟩⟩

/-! ## Theorems: what a failed probe leaves behind -/

theorem probe_NULL_keeps_ctx (K : dpms_consts) (E : errno_consts) (env : probe_env)
    (g : device_tree) (dev : device) (s : driver_state) (addr : Nat)
    (halloc : env.devm_kzalloc = some addr)
    (hnull : (exynos_dpi_probe K E env g dev s).1 = .NULL) :
    (exynos_dpi_probe K E env g dev s).2.display_ctx = some addr ∧
    dev.id ∉ (exynos_dpi_probe K E env g dev s).2.components := by
  unfold exynos_dpi_probe at hnull ⊢
  simp only [halloc] at hnull ⊢
  split_ifs at hnull ⊢
  all_goals exact ⟨rfl, not_mem_component_del dev _⟩

theorem probe_alloc_failure (K : dpms_consts) (E : errno_consts) (env : probe_env)
    (g : device_tree) (dev : device) (s : driver_state)
    (hadd : env.component_add = 0) (halloc : env.devm_kzalloc = none) :
    (exynos_dpi_probe K E env g dev s).1 = .NULL ∧
    (exynos_dpi_probe K E env g dev s).2.display_ctx = s.display_ctx := by
  simp [exynos_dpi_probe, hadd, halloc, err_del_component]

/-- C16: the code at the failing inputs. After a probe that fails because the
"ddc" phandle is missing, the device is no longer registered as a component, but
`exynos_dpi_display.ctx`, `NULL` before the call, holds the address of the context
of the failed probe, which has been freed; the field also keeps that address when
the clock is unavailable, when the ddc adapter is not there yet and when the
sysreg lookup fails. Only when the allocation fails is the field as before. -/
theorem probe_failure_leaves_display_ctx :
    state_initial.display_ctx = none ∧
    (exynos_dpi_probe drm_mode_h errno_h env_ok (example_tree false false) fimd_dev
      state_initial).1 = .NULL ∧
    (exynos_dpi_probe drm_mode_h errno_h env_ok (example_tree false false) fimd_dev
      state_initial).2.components = [] ∧
    (exynos_dpi_probe drm_mode_h errno_h env_ok (example_tree false false) fimd_dev
      state_initial).2.display_ctx = some 100 ∧
    100 ∉ (exynos_dpi_probe drm_mode_h errno_h env_ok (example_tree false false) fimd_dev
      state_initial).2.allocated ∧
    (exynos_dpi_probe drm_mode_h errno_h env_ok (example_tree false false) fimd_dev
      state_initial).2 ≠ state_initial ∧
    (exynos_dpi_probe drm_mode_h errno_h { env_ok with devm_clk_get := .ERR_PTR (-2) }
      example_tree_ddc fimd_dev state_initial).2.display_ctx = some 100 ∧
    (exynos_dpi_probe drm_mode_h errno_h
      { env_ok with of_find_i2c_adapter_by_node := fun _ => none }
      example_tree_ddc fimd_dev state_initial).2.display_ctx = some 100 ∧
    (exynos_dpi_probe drm_mode_h errno_h
      { env_ok with syscon_regmap_lookup_by_phandle := .ERR_PTR (-19) }
      example_tree_ddc fimd_dev state_initial).2.display_ctx = some 100 ∧
    (exynos_dpi_probe drm_mode_h errno_h { env_ok with devm_kzalloc := none }
      example_tree_ddc fimd_dev state_initial) = (.NULL, state_initial) := by
  decide

/-! ## Theorems: the bound encoder -/

theorem dpi_step_encoder (env : dpi_env) (s : dpi_state) (op : dpi_op)
    (h : op.is_create = false) : (dpi_step env s op).ctx.encoder = s.ctx.encoder := by
  cases op with
  | create_connector e r => simp [dpi_op.is_create] at h
  | detect => rfl
  | get_modes => rfl
  | mode_valid m => rfl
  | dpms m => simp [dpi_step, exynos_dpi_dpms]
  | mode_set m => rfl

theorem dpi_run_encoder (env : dpi_env) (ops : List dpi_op) :
    ∀ s : dpi_state, (∀ op ∈ ops, op.is_create = false) →
      (dpi_run env s ops).ctx.encoder = s.ctx.encoder := by
  induction ops with
  | nil => intro s _; rfl
  | cons op rest ih =>
    intro s h
    unfold dpi_run
    rw [ih (dpi_step env s op) (fun o ho => h o (List.mem_cons_of_mem _ ho))]
    exact dpi_step_encoder env s op (h op (List.mem_cons_self _ _))

theorem dpi_run_append (env : dpi_env) (ops1 ops2 : List dpi_op) :
    ∀ s : dpi_state, dpi_run env s (ops1 ++ ops2) = dpi_run env (dpi_run env s ops1) ops2 := by
  induction ops1 with
  | nil => intro s; rfl
  | cons op rest ih =>
    intro s
    simp only [List.cons_append, dpi_run]
    exact ih _

theorem dpi_step_create_encoder (env : dpi_env) (s : dpi_state) (e : Nat) (r : Int) :
    (dpi_step env s (.create_connector e r)).ctx.encoder = some e := by
  unfold dpi_step exynos_dpi_create_connector
  by_cases h : r = 0 <;> simp [h]

/-- Counterexample to C17 as stated: after `create_connector` with encoder 1, a
further `create_connector` with encoder 2 makes `exynos_dpi_best_encoder` return
encoder 2. -/
theorem create_connector_rebinds :
    exynos_dpi_best_encoder
      (dpi_run dpi_env_example dpi_state_example [.create_connector 1 0]).ctx = some 1 ∧
    exynos_dpi_best_encoder
      (dpi_run dpi_env_example dpi_state_example
        [.create_connector 1 0, .detect, .create_connector 2 0]).ctx = some 2 ∧
    exynos_dpi_best_encoder
      (dpi_run dpi_env_example dpi_state_example
        [.create_connector 1 0, .detect, .create_connector 2 0]).ctx ≠ some 1 := by
  decide

/-- C17 (amended): after `exynos_dpi_create_connector` with encoder `e`, whatever
`drm_connector_init` returned, `exynos_dpi_best_encoder` returns `e`, and it still
returns `e` after any sequence of detect, get_modes, mode_valid, dpms and mode_set;
a further `create_connector` with encoder `e2` binds `e2` instead. -/
theorem best_encoder_stable (env : dpi_env) (s : dpi_state) (e : Nat) (init_ret : Int)
    (ops : List dpi_op) (hops : ∀ op ∈ ops, op.is_create = false) :
    exynos_dpi_best_encoder (dpi_step env s (.create_connector e init_ret)).ctx = some e ∧
    exynos_dpi_best_encoder
      (dpi_run env s (.create_connector e init_ret :: ops)).ctx = some e ∧
    (∀ (e2 : Nat) (r2 : Int), exynos_dpi_best_encoder
      (dpi_run env s (.create_connector e init_ret :: (ops ++ [.create_connector e2 r2]))).ctx =
        some e2) := by
  unfold exynos_dpi_best_encoder
  refine ⟨dpi_step_create_encoder env s e init_ret, ?_, ?_⟩
  · simp only [dpi_run]
    rw [dpi_run_encoder env ops _ hops]
    exact dpi_step_create_encoder env s e init_ret
  · intro e2 r2
    simp only [dpi_run]
    rw [dpi_run_append]
    simp only [dpi_run]
    exact dpi_step_create_encoder env _ e2 r2

/-- Witness of C17 (amended): encoder 1 stays bound through detect, get_modes,
mode_valid, dpms and mode_set. -/
theorem best_encoder_stable_witness :
    exynos_dpi_best_encoder
      (dpi_run dpi_env_example dpi_state_example
        [.create_connector 1 0, .detect, .get_modes, .mode_valid mode_1080p, .dpms 0,
          .mode_set mode_1080p]).ctx = some 1 :=
  (best_encoder_stable dpi_env_example dpi_state_example 1 0
    [.detect, .get_modes, .mode_valid mode_1080p, .dpms 0, .mode_set mode_1080p]
    (by decide)).2.1

/-! ## Theorems: the requested frequency -/

theorem wrap_int_of_range (x : Int) (h0 : -2 ^ 31 ≤ x) (h1 : x < 2 ^ 31) : wrap_int x = x := by
  unfold wrap_int
  rw [Int.emod_eq_of_lt (by omega) (by omega)]
  omega

theorem ideal_clk_exact_in_range (L : Nat) (hL : 31 ≤ L) (m : drm_display_mode)
    (h0 : 0 ≤ m.clock) (h1 : m.clock ≤ 2147483) : ideal_clk L m = m.clock * 1000 := by
  unfold ideal_clk
  rw [wrap_int_of_range _ (by omega) (by omega)]
  apply to_ulong_of_range
  · omega
  · have h31 : (2 : Int) ^ 31 ≤ 2 ^ L := pow_le_pow_right₀ (by norm_num) hL
    have : m.clock * 1000 < 2 ^ 31 := by omega
    omega

/-- C18: the code at the failing inputs. For the `int` clock 537019412 (kHz) the
product `clock * 1000` is 537019412000, but `ideal_clk` is 148500000 on a 32 bit
and on a 64 bit build: that is the frequency passed to the clock and compared
against, and the mode is accepted by a clock that can only produce 148.5 MHz. For
the clock 2147484 the `int` product wraps to a negative value, which a 64 bit
build converts to 18446744071562068320; for the clock -1 a 32 bit build requests
4294966296. -/
theorem ideal_clk_wraps :
    (mode_1080p_clock 537019412).clock * 1000 = 537019412000 ∧
    ideal_clk 32 (mode_1080p_clock 537019412) = 148500000 ∧
    ideal_clk 64 (mode_1080p_clock 537019412) = 148500000 ∧
    exynos_drm_connector_mode_valid 32 clk_only_148500kHz (mode_1080p_clock 537019412) =
      ⟨.MODE_OK, []⟩ ∧
    exynos_drm_connector_mode_valid 64 clk_only_148500kHz (mode_1080p_clock 537019412) =
      ⟨.MODE_OK, []⟩ ∧
    (mode_1080p_clock 2147484).clock * 1000 = 2147484000 ∧
    wrap_int ((mode_1080p_clock 2147484).clock * 1000) = -2147483296 ∧
    ideal_clk 64 (mode_1080p_clock 2147484) = 18446744071562068320 ∧
    ideal_clk 32 (mode_1080p_clock (-1)) = 4294966296 := by
  decide

/-! ## Theorems: the panel follows the power state -/

theorem dpms_seq_invariant (K : dpms_consts) (panel : Nat) (modes : List Int) :
    ∀ ctx : exynos_dpi, ctx.panel = some panel →
      (∀ m ∈ modes, m = K.DRM_MODE_DPMS_ON ∨ m = K.DRM_MODE_DPMS_STANDBY ∨
        m = K.DRM_MODE_DPMS_SUSPEND ∨ m = K.DRM_MODE_DPMS_OFF) →
      panel_enabled (decide (ctx.dpms_mode = K.DRM_MODE_DPMS_ON))
          (exynos_dpi_dpms_calls K ctx modes) =
        decide ((exynos_dpi_dpms_seq K ctx modes).1.dpms_mode = K.DRM_MODE_DPMS_ON) ∧
      calls_alternate (decide (ctx.dpms_mode = K.DRM_MODE_DPMS_ON))
          (exynos_dpi_dpms_calls K ctx modes) = true ∧
      count_enable (exynos_dpi_dpms_calls K ctx modes) +
          (if ctx.dpms_mode = K.DRM_MODE_DPMS_ON then 1 else 0) =
        count_disable (exynos_dpi_dpms_calls K ctx modes) +
          (if (exynos_dpi_dpms_seq K ctx modes).1.dpms_mode = K.DRM_MODE_DPMS_ON
            then 1 else 0) := by
  induction modes with
  | nil =>
    intro ctx _ _
    simp [exynos_dpi_dpms_calls, exynos_dpi_dpms_seq, panel_enabled, calls_alternate,
      count_enable, count_disable]
  | cons m rest ih =>
    intro ctx hpanel hmodes
    have hm := hmodes m (List.mem_cons_self _ _)
    have hrest := fun x hx => hmodes x (List.mem_cons_of_mem _ hx)
    have hon : exynos_dpi_poweron ctx = [.drm_panel_enable panel] := by
      simp [exynos_dpi_poweron, hpanel]
    have hoff : exynos_dpi_poweroff ctx = [.drm_panel_disable panel] := by
      simp [exynos_dpi_poweroff, hpanel]
    by_cases hmon : m = K.DRM_MODE_DPMS_ON
    · subst hmon
      have ih2 := ih { ctx with dpms_mode := K.DRM_MODE_DPMS_ON } hpanel hrest
      simp only [exynos_dpi_dpms_calls] at ih2 ⊢
      simp only [exynos_dpi_dpms_seq, dpms_to_on, List.flatten_cons]
      by_cases hold : ctx.dpms_mode = K.DRM_MODE_DPMS_ON
      · simpa [hold] using ih2
      · simp only [hold, hon, ne_eq, not_false_eq_true, if_true, if_false, decide_False,
          List.singleton_append, panel_enabled, calls_alternate, count_enable, count_disable,
          Bool.not_false, Bool.true_and]
        simp only [decide_True, if_true] at ih2
        refine ⟨ih2.1, ih2.2.1, ?_⟩
        omega
    · have hother := hm.resolve_left hmon
      have ih2 := ih { ctx with dpms_mode := m } hpanel hrest
      simp only [exynos_dpi_dpms_calls] at ih2 ⊢
      simp only [exynos_dpi_dpms_seq, dpms_to_other K ctx m hmon hother, List.flatten_cons]
      have hd : decide (m = K.DRM_MODE_DPMS_ON) = false := by simp [hmon]
      simp only [hd, if_neg hmon] at ih2
      by_cases hold : ctx.dpms_mode = K.DRM_MODE_DPMS_ON
      · simp only [hold, hoff, if_true, decide_True, List.singleton_append, panel_enabled,
          calls_alternate, count_enable, count_disable, Bool.true_and]
        refine ⟨ih2.1, ih2.2.1, ?_⟩
        omega
      · simpa [hold] using ih2

theorem parse_dt_dpms_mode (E : errno_consts) (env : probe_env) (g : device_tree) (dn : Nat)
    (ctx : exynos_dpi) :
    (exynos_dpi_parse_dt E env g dn ctx).2.dpms_mode = ctx.dpms_mode ∧
    (exynos_dpi_parse_dt E env g dn ctx).2.panel = ctx.panel := by
  unfold exynos_dpi_parse_dt
  cases (g dn).ddc with
  | none => exact ⟨rfl, rfl⟩
  | some n =>
    cases h : env.of_find_i2c_adapter_by_node n with
    | none => simp [h]
    | some a => simp [h]

theorem probe_success_dpms_off (K : dpms_consts) (E : errno_consts) (env : probe_env)
    (g : device_tree) (dev : device) (s : driver_state)
    (hok : (exynos_dpi_probe K E env g dev s).1 = .exynos_dpi_display) :
    ∃ addr ctx, (exynos_dpi_probe K E env g dev s).2.display_ctx = some addr ∧
      (exynos_dpi_probe K E env g dev s).2.ctx_mem.head? = some (addr, ctx) ∧
      ctx.dpms_mode = K.DRM_MODE_DPMS_OFF ∧ ctx.panel = none := by
  unfold exynos_dpi_probe at hok ⊢
  cases halloc : env.devm_kzalloc with
  | none =>
    simp only [halloc] at hok
    split_ifs at hok
    simp [err_del_component] at hok
  | some addr =>
    simp only [halloc] at hok ⊢
    split_ifs at hok ⊢
    all_goals first
      | (simp [err_del_component] at hok; done)
      | exact ⟨addr, _, rfl, rfl, (parse_dt_dpms_mode E env g dev.of_node _).1,
          (parse_dt_dpms_mode E env g dev.of_node _).2⟩

/-- C19: from a context with stored state Off and a panel attached (the panel not
enabled), after any finite sequence of `exynos_dpi_dpms` calls with arguments among
On, Standby, Suspend and Off, the panel is enabled if and only if the stored state
is On; the enable and disable calls alternate, beginning with an enable, and the
number of enables is the number of disables plus 1 when the state is On and equal
to it otherwise. -/
theorem dpms_panel_enabled_iff_on (K : dpms_consts) (ctx : exynos_dpi) (panel : Nat)
    (modes : List Int) (hpanel : ctx.panel = some panel)
    (hoff : ctx.dpms_mode = K.DRM_MODE_DPMS_OFF)
    (hmodes : ∀ m ∈ modes, m = K.DRM_MODE_DPMS_ON ∨ m = K.DRM_MODE_DPMS_STANDBY ∨
      m = K.DRM_MODE_DPMS_SUSPEND ∨ m = K.DRM_MODE_DPMS_OFF) :
    (panel_enabled false (exynos_dpi_dpms_calls K ctx modes) = true ↔
      (exynos_dpi_dpms_seq K ctx modes).1.dpms_mode = K.DRM_MODE_DPMS_ON) ∧
    calls_alternate false (exynos_dpi_dpms_calls K ctx modes) = true ∧
    count_enable (exynos_dpi_dpms_calls K ctx modes) =
      count_disable (exynos_dpi_dpms_calls K ctx modes) +
        (if (exynos_dpi_dpms_seq K ctx modes).1.dpms_mode = K.DRM_MODE_DPMS_ON
          then 1 else 0) := by
  have hne : ctx.dpms_mode ≠ K.DRM_MODE_DPMS_ON := by
    rw [hoff]
    exact fun h => (dpms_consts_ne K).2.2 h.symm
  have h := dpms_seq_invariant K panel modes ctx hpanel hmodes
  have hd : decide (ctx.dpms_mode = K.DRM_MODE_DPMS_ON) = false := by simp [hne]
  simp only [hd, if_neg hne, Nat.add_zero] at h
  refine ⟨?_, h.2.1, h.2.2⟩
  rw [h.1]
  simp

/-- Witness of C19: from Off with panel 7, the sequence On, On, Standby, On,
Suspend, Off, On leaves the panel enabled after three enables and two disables. -/
theorem dpms_panel_enabled_iff_on_witness :
    exynos_dpi_dpms_calls drm_mode_h ctx_with_panel [0, 0, 1, 0, 2, 3, 0] =
      [.drm_panel_enable 7, .drm_panel_disable 7, .drm_panel_enable 7, .drm_panel_disable 7,
        .drm_panel_enable 7] ∧
    (exynos_dpi_dpms_seq drm_mode_h ctx_with_panel [0, 0, 1, 0, 2, 3, 0]).1.dpms_mode = 0 ∧
    panel_enabled false
      (exynos_dpi_dpms_calls drm_mode_h ctx_with_panel [0, 0, 1, 0, 2, 3, 0]) = true ∧
    calls_alternate false
      (exynos_dpi_dpms_calls drm_mode_h ctx_with_panel [0, 0, 1, 0, 2, 3, 0]) = true :=
  have h := dpms_panel_enabled_iff_on drm_mode_h ctx_with_panel 7 [0, 0, 1, 0, 2, 3, 0] rfl rfl
    (by decide)
  ⟨by decide, by decide, h.1.mpr (by decide), h.2.1⟩

end ExynosDpi
